import Mathlib

/-!
# Certificate pre-exchange task (`src/libcharon/sa/tasks/ike_cert_pre.c`)

A shallow embedding of the IKE certificate pre-exchange task: the processing of
certificate and certificate-request payloads, the construction of outgoing
certificate requests, the final-round detector, the legacy state machine and
the build/process pairs bound at construction.

Pointers to session-owned objects are modelled by explicit state passing: the
task record carries its session, and every operation returns the updated
record (and, for builders, the updated outgoing message).
-/

namespace ike_cert_pre

/-! ## Collaborating types (declared outside the task's source file) -/

/-- Chunk of bytes: `none` is a chunk whose `ptr` is NULL (such as `chunk_empty`),
`some bs` a chunk whose `ptr` addresses the bytes `bs` (its `len` is `bs.length`). -/
abbrev chunk_t := Option (List Nat)

/-- Length field of a chunk. -/
def chunk_len (c : chunk_t) : Nat :=
  match c with
  | none => 0
  | some bs => bs.length

/-- Return codes of task methods. -/
inductive status_t
  | SUCCESS
  | FAILED
  | OUT_OF_RES
  | ALREADY_DONE
  | NOT_SUPPORTED
  | INVALID_ARG
  | NOT_FOUND
  | PARSE_ERROR
  | VERIFY_ERROR
  | INVALID_STATE
  | DESTROY_ME
  | NEED_MORE
  deriving DecidableEq, Repr

/-- Protocol generation of a session. -/
inductive ike_version_t
  | IKEV1
  | IKEV2
  deriving DecidableEq, Repr

/-- Exchange types of both generations. -/
inductive exchange_type_t
  | ID_PROT
  | AUTH_ONLY
  | AGGRESSIVE
  | INFORMATIONAL_V1
  | TRANSACTION
  | QUICK_MODE
  | IKE_SA_INIT
  | IKE_AUTH
  | CREATE_CHILD_SA
  | INFORMATIONAL
  | EXCHANGE_TYPE_UNDEFINED
  deriving DecidableEq, Repr

/-- Payload types of both generations. -/
inductive payload_type_t
  | NO_PAYLOAD
  | SECURITY_ASSOCIATION_V1
  | KEY_EXCHANGE_V1
  | ID_V1
  | CERTIFICATE_V1
  | CERTIFICATE_REQUEST_V1
  | HASH_V1
  | SIGNATURE_V1
  | NONCE_V1
  | NOTIFY_V1
  | VENDOR_ID_V1
  | SECURITY_ASSOCIATION
  | KEY_EXCHANGE
  | ID_INITIATOR
  | ID_RESPONDER
  | CERTIFICATE
  | CERTIFICATE_REQUEST
  | AUTHENTICATION
  | NONCE
  | NOTIFY
  | VENDOR_ID
  deriving DecidableEq, Repr

/-- Certificate encodings of a certificate payload. -/
inductive cert_encoding_t
  | ENC_PKCS7_WRAPPED_X509
  | ENC_PGP
  | ENC_DNS_SIGNED_KEY
  | ENC_X509_SIGNATURE
  | ENC_KERBEROS_TOKEN
  | ENC_CRL
  | ENC_ARL
  | ENC_SPKI
  | ENC_X509_ATTRIBUTE
  | ENC_RAW_RSA_KEY
  | ENC_X509_HASH_AND_URL
  | ENC_X509_HASH_AND_URL_BUNDLE
  | ENC_OCSP_CONTENT
  deriving DecidableEq, Repr

/-- Kinds of certificates. -/
inductive certificate_type_t
  | CERT_ANY
  | CERT_X509
  | CERT_X509_CRL
  | CERT_X509_OCSP_REQUEST
  | CERT_X509_OCSP_RESPONSE
  | CERT_X509_AC
  | CERT_TRUSTED_PUBKEY
  | CERT_GPG
  deriving DecidableEq, Repr

/-- Kinds of keys. -/
inductive key_type_t
  | KEY_ANY
  | KEY_RSA
  | KEY_ECDSA
  | KEY_DSA
  deriving DecidableEq, Repr

/-- Kinds of identities. -/
inductive id_type_t
  | ID_ANY
  | ID_IPV4_ADDR
  | ID_FQDN
  | ID_RFC822_ADDR
  | ID_IPV6_ADDR
  | ID_DER_ASN1_DN
  | ID_DER_ASN1_GN
  | ID_KEY_ID
  deriving DecidableEq, Repr

/-- Authentication methods a negotiation proposal can advertise. -/
inductive auth_method_t
  | AUTH_NONE
  | AUTH_RSA
  | AUTH_PSK
  | AUTH_DSS
  | AUTH_ECDSA_256
  | AUTH_ECDSA_384
  | AUTH_ECDSA_521
  | AUTH_XAUTH_INIT_PSK
  | AUTH_XAUTH_RESP_PSK
  | AUTH_XAUTH_INIT_RSA
  | AUTH_XAUTH_RESP_RSA
  | AUTH_HYBRID_INIT_RSA
  | AUTH_HYBRID_RESP_RSA
  deriving DecidableEq, Repr

/-- Notification types; only two are inspected or produced by the task. -/
inductive notify_type_t
  | AUTHENTICATION_FAILED
  | INITIAL_CONTACT
  | MOBIKE_SUPPORTED
  | HTTP_CERT_LOOKUP_SUPPORTED
  | MULTIPLE_AUTH_SUPPORTED
  | ANOTHER_AUTH_FOLLOWS
  | EAP_ONLY_AUTHENTICATION
  deriving DecidableEq, Repr

/-- Rule kinds of an authentication context. -/
inductive auth_rule_t
  | AUTH_RULE_IDENTITY
  | AUTH_RULE_AUTH_CLASS
  | AUTH_RULE_EAP_IDENTITY
  | AUTH_RULE_CA_CERT
  | AUTH_RULE_IM_CERT
  | AUTH_RULE_SUBJECT_CERT
  | AUTH_RULE_GROUP
  | AUTH_HELPER_IM_CERT
  | AUTH_HELPER_SUBJECT_CERT
  | AUTH_HELPER_IM_HASH_URL
  | AUTH_HELPER_SUBJECT_HASH_URL
  | AUTH_HELPER_REVOCATION_CERT
  deriving DecidableEq, Repr

/-- Identity: its kind and its encoding. -/
structure identification_t where
  type : id_type_t
  encoded : chunk_t
  deriving DecidableEq, Repr

/-- Modelled from the spec: `identification_create_from_encoding` (identity
layer, outside the task's file) "builds an identity from raw bytes using a
specified identity kind". The result is a pointer in the source, hence the
`Option`; the constructor always yields an identity. -/
def identification_create_from_encoding (type : id_type_t) (encoded : chunk_t) :
    Option identification_t :=
  some { type := type, encoded := encoded }

/-- Public key: abstract key material and the result of
`get_fingerprint(KEYID_PUBKEY_INFO_SHA1)` (`none` when the call returns FALSE). -/
structure public_key_t where
  key : Nat
  keyid_pubkey_info_sha1 : Option chunk_t
  deriving DecidableEq, Repr

/-- Bit of the X.509 flag set marking a certificate authority. -/
def X509_CA : Nat := 1

/-- Certificate as seen through its accessors: `get_type`, `get_subject`,
`get_public_key` (`none` for NULL) and, for X.509, `get_flags`. -/
structure certificate_t where
  type : certificate_type_t
  subject : identification_t
  public_key : Option public_key_t
  x509_flags : Nat
  deriving DecidableEq, Repr

/-- Value stored under a rule of an authentication context. -/
inductive auth_value_t
  | cert (c : certificate_t)
  | str (s : String)
  | id (i : identification_t)
  | num (n : Nat)
  deriving DecidableEq, Repr

/-- Modelled from the spec: the authentication context (`auth_cfg_t`, outside
the task's file) is "an ordered multi-map of rule-kind to value" to which the
task "only appends". -/
abbrev auth_cfg_t := List (auth_rule_t × auth_value_t)

/-- Modelled from the spec: `auth->add(auth, type, value)` appends one entry. -/
def auth_cfg_add (auth : auth_cfg_t) (type : auth_rule_t) (value : auth_value_t) :
    auth_cfg_t :=
  auth ++ [(type, value)]

/-- Certificate payload as seen through its accessors. -/
structure cert_payload_t where
  type : payload_type_t
  get_cert_encoding : cert_encoding_t
  get_cert : Option certificate_t
  get_hash : chunk_t
  get_url : Option String
  deriving DecidableEq, Repr

/-- Certificate-request payload: its payload type, the requested certificate
type, the key-ids (newer generation) and the distinguished name (legacy). -/
structure certreq_payload_t where
  type : payload_type_t
  cert_type : certificate_type_t
  keyids : List chunk_t
  dn : chunk_t
  deriving DecidableEq, Repr

/-- Notification payload. -/
structure notify_payload_t where
  notify_type : notify_type_t
  data : chunk_t
  deriving DecidableEq, Repr

/-- Negotiation-proposal payload as seen through `get_auth_method`. -/
structure sa_payload_t where
  type : payload_type_t
  get_auth_method : auth_method_t
  deriving DecidableEq, Repr

/-- Payload of a message. `unknown` stands for every payload kind the task never
looks into; `not_a_payload` is a pointer handed to the message that does not
address a payload object (see `add_certreqs_v1`). A well-formed payload carries
the type tag of its kind; the pointer casts of the source, made after a test of
`get_type`, are matches on the constructor, and a payload whose tag does not
fit its kind is passed over. -/
inductive payload_t
  | sa (p : sa_payload_t)
  | cert (p : cert_payload_t)
  | certreq (p : certreq_payload_t)
  | notify (p : notify_payload_t)
  | unknown (type : payload_type_t)
  | not_a_payload
  deriving DecidableEq, Repr

/-- Virtual `get_type` of a payload. -/
def payload_t.get_type : payload_t → payload_type_t
  | .sa p => p.type
  | .cert p => p.type
  | .certreq p => p.type
  | .notify _ => payload_type_t.NOTIFY
  | .unknown t => t
  | .not_a_payload => payload_type_t.NO_PAYLOAD

/-- Message: exchange type, message id and the ordered payloads. -/
structure message_t where
  exchange_type : exchange_type_t
  message_id : Nat
  payloads : List payload_t
  deriving DecidableEq, Repr

/-- Modelled from the spec: `message->add_payload` appends a payload. -/
def message_t.add_payload (message : message_t) (payload : payload_t) : message_t :=
  { message with payloads := message.payloads ++ [payload] }

/-- Modelled from the spec: `message->add_notify(flush, type, data)` drops the
payloads when `flush` is set and appends a notification of the given type. -/
def message_t.add_notify (message : message_t) (flush : Bool) (type : notify_type_t)
    (data : chunk_t) : message_t :=
  let kept := if flush then { message with payloads := [] } else message
  kept.add_payload (.notify { notify_type := type, data := data })

/-- Modelled from the spec: `message->get_payload(type)` is the first payload of
the given type, if any. -/
def message_t.get_payload (message : message_t) (type : payload_type_t) :
    Option payload_t :=
  message.payloads.find? (fun p => decide (p.get_type = type))

/-- Modelled from the spec: `message->get_notify(type)` is the first notification
payload carrying the given notification type, if any. -/
def message_t.get_notify (message : message_t) (type : notify_type_t) :
    Option notify_payload_t :=
  message.payloads.findSome? (fun p =>
    match p with
    | .notify n => if n.notify_type = type then some n else none
    | _ => none)

/-- IKE configuration: whether certificate requests are sent. -/
structure ike_cfg_t where
  send_certreq : Bool
  deriving DecidableEq, Repr

/-- Peer configuration: its authentication configs, per direction. -/
structure peer_cfg_t where
  local_auth_cfgs : List auth_cfg_t
  remote_auth_cfgs : List auth_cfg_t
  deriving DecidableEq, Repr

/-- Enumeration `create_auth_cfg_enumerator(peer_cfg, local)`. -/
def peer_cfg_t.create_auth_cfg_enumerator (peer_cfg : peer_cfg_t) (local_cfgs : Bool) :
    List auth_cfg_t :=
  if local_cfgs then peer_cfg.local_auth_cfgs else peer_cfg.remote_auth_cfgs

/-- Session: generation, configurations, the two authentication contexts, the
condition "certificate request seen" and the hash-and-url extension. -/
structure ike_sa_t where
  version : ike_version_t
  ike_cfg : ike_cfg_t
  peer_cfg : Option peer_cfg_t
  my_auth : auth_cfg_t
  other_auth : auth_cfg_t
  cond_certreq_seen : Bool
  ext_hash_and_url : Bool
  deriving DecidableEq, Repr

/-- Credential manager: single lookup and enumeration, both by certificate
kind, key kind, identity and the trusted-only flag. -/
structure credential_manager_t where
  get_cert : certificate_type_t → key_type_t → identification_t → Bool →
    Option certificate_t
  create_cert_enumerator : certificate_type_t → key_type_t →
    Option identification_t → Bool → List certificate_t

/-- Settings: boolean lookup by key with a default. -/
structure settings_t where
  get_bool : String → Bool → Bool

/-- Library context `lib`: credential manager and settings. -/
structure library_t where
  credmgr : credential_manager_t
  settings : settings_t

/-! ## The task -/

/-- States of the legacy progression. -/
inductive cp_state_t
  | CP_INIT
  | CP_SA
  | CP_SA_POST
  | CP_REQ_SENT
  | CP_NO_CERT
  deriving DecidableEq, Repr

/-- Build implementations a task can be bound to. -/
inductive build_method_t
  | build_i
  | build_r
  | build_i_v1
  | build_r_v1
  deriving DecidableEq, Repr

/-- Process implementations a task can be bound to. -/
inductive process_method_t
  | process_i
  | process_r
  | process_i_v1
  | process_r_v1
  deriving DecidableEq, Repr

/-- Private members of the task (`private_ike_cert_pre_t`). -/
structure private_ike_cert_pre_t where
  build : build_method_t
  process : process_method_t
  ike_sa : ike_sa_t
  initiator : Bool
  do_http_lookup : Bool
  final : Bool
  state : cp_state_t
  cert_req_payload_type : payload_type_t
  deriving DecidableEq, Repr

open status_t ike_version_t exchange_type_t payload_type_t cert_encoding_t
open certificate_type_t key_type_t id_type_t auth_method_t notify_type_t auth_rule_t
open cp_state_t

/-! ### Reading certificate requests -/

/-- Source `add_certificate`: resolve one requested CA and record it. -/
def add_certificate (lib : library_t) (auth : auth_cfg_t) (keyid : chunk_t)
    (id_type : id_type_t) : Bool × auth_cfg_t :=
  match identification_create_from_encoding id_type keyid with
  | none => (false, auth)
  | some id =>
    match lib.credmgr.get_cert CERT_X509 KEY_ANY id true with
    | some cert => (true, auth_cfg_add auth AUTH_RULE_CA_CERT (.cert cert))
    | none => (false, auth)

/-- Key-id loop of `process_certreqs`: the context and the `u_int` counter
`unknown` after the given key-ids. -/
def certreq_keyid_loop (lib : library_t) :
    List chunk_t → auth_cfg_t × Nat → auth_cfg_t × Nat
  | [], st => st
  | keyid :: rest, (auth, unknown) =>
    let r := add_certificate lib auth keyid ID_KEY_ID
    if !r.1 then certreq_keyid_loop lib rest (r.2, (unknown + 1) % 2 ^ 32)
    else certreq_keyid_loop lib rest (r.2, unknown)

/-- Body of the certificate-request case of `process_certreqs`, after the
condition has been set: the context and the final value of `unknown`. -/
def process_certreq (lib : library_t) (type : payload_type_t)
    (certreq : certreq_payload_t) (auth : auth_cfg_t) : auth_cfg_t × Nat :=
  if certreq.cert_type ≠ CERT_X509 then (auth, 0)
  else if type = CERTIFICATE_REQUEST then
    certreq_keyid_loop lib certreq.keyids (auth, 0)
  else
    let keyid := certreq.dn
    if keyid.isNone || chunk_len keyid == 0 then (auth, 1)
    else
      let r := add_certificate lib auth keyid ID_DER_ASN1_DN
      if !r.1 then (r.2, 1) else (r.2, 0)

/-- One iteration of the payload loop of `process_certreqs`. The counter of a
request payload is only logged. -/
def process_certreqs_payload (lib : library_t) (this : private_ike_cert_pre_t)
    (payload : payload_t) : private_ike_cert_pre_t :=
  match payload.get_type with
  | CERTIFICATE_REQUEST | CERTIFICATE_REQUEST_V1 =>
    match payload with
    | .certreq certreq =>
      let sa := { this.ike_sa with cond_certreq_seen := true }
      let r := process_certreq lib payload.get_type certreq sa.my_auth
      { this with ike_sa := { sa with my_auth := r.1 } }
    | _ => this
  | NOTIFY =>
    match payload with
    | .notify notify =>
      if notify.notify_type = HTTP_CERT_LOOKUP_SUPPORTED then
        { this with ike_sa := { this.ike_sa with ext_hash_and_url := true } }
      else this
    | _ => this
  | _ => this

/-- Source `process_certreqs`: read certificate requests. -/
def process_certreqs (lib : library_t) (this : private_ike_cert_pre_t)
    (message : message_t) : private_ike_cert_pre_t :=
  message.payloads.foldl (process_certreqs_payload lib) this

/-! ### Importing certificates -/

/-- Source `try_get_cert`: the certificate of a payload, embedded or known to the
credential manager by the hash of a hash-and-url payload. -/
def try_get_cert (lib : library_t) (cert_payload : cert_payload_t) :
    Option certificate_t :=
  match cert_payload.get_cert_encoding with
  | ENC_X509_SIGNATURE => cert_payload.get_cert
  | ENC_X509_HASH_AND_URL =>
    match cert_payload.get_hash with
    | none => none
    | some hash =>
      match identification_create_from_encoding ID_KEY_ID (some hash) with
      | some id => lib.credmgr.get_cert CERT_X509 KEY_ANY id false
      | none => none
  | _ => none

/-- Shared arm of the encoding switch of `process_certs` (signature, and
hash-and-url falling through): the context and the `first` flag afterwards. -/
def process_cert_x509 (lib : library_t) (cert_payload : cert_payload_t)
    (st : auth_cfg_t × Bool) : auth_cfg_t × Bool :=
  let auth := st.1
  let first := st.2
  match try_get_cert lib cert_payload with
  | some cert =>
    if first then (auth_cfg_add auth AUTH_HELPER_SUBJECT_CERT (.cert cert), false)
    else (auth_cfg_add auth AUTH_HELPER_IM_CERT (.cert cert), first)
  | none =>
    if cert_payload.get_cert_encoding = ENC_X509_HASH_AND_URL then
      match cert_payload.get_url with
      | none => (auth, first)
      | some url =>
        if first then (auth_cfg_add auth AUTH_HELPER_SUBJECT_HASH_URL (.str url), false)
        else (auth_cfg_add auth AUTH_HELPER_IM_HASH_URL (.str url), first)
    else (auth, first)

/-- Encoding switch of `process_certs` for one certificate payload. -/
def process_cert_payload (lib : library_t) (do_http_lookup : Bool)
    (cert_payload : cert_payload_t) (st : auth_cfg_t × Bool) : auth_cfg_t × Bool :=
  match cert_payload.get_cert_encoding with
  | ENC_X509_HASH_AND_URL =>
    if !do_http_lookup then st
    else process_cert_x509 lib cert_payload st
  | ENC_X509_SIGNATURE => process_cert_x509 lib cert_payload st
  | ENC_CRL =>
    match cert_payload.get_cert with
    | some cert => (auth_cfg_add st.1 AUTH_HELPER_REVOCATION_CERT (.cert cert), st.2)
    | none => st
  | _ => st

/-- One iteration of the payload loop of `process_certs`. -/
def process_certs_payload (lib : library_t) (do_http_lookup : Bool)
    (st : auth_cfg_t × Bool) (payload : payload_t) : auth_cfg_t × Bool :=
  if payload.get_type = CERTIFICATE ∨ payload.get_type = CERTIFICATE_V1 then
    match payload with
    | .cert cert_payload => process_cert_payload lib do_http_lookup cert_payload st
    | _ => st
  else st

/-- Source `process_certs`: import certificates into the context of the peer,
with `first` starting TRUE on every call. -/
def process_certs (lib : library_t) (this : private_ike_cert_pre_t)
    (message : message_t) : private_ike_cert_pre_t :=
  let r := message.payloads.foldl (process_certs_payload lib this.do_http_lookup)
    (this.ike_sa.other_auth, true)
  { this with ike_sa := { this.ike_sa with other_auth := r.1 } }

/-! ### Building certificate requests -/

/-- Modelled from the spec: `certreq_payload_create_type(type, cert_type)` is an
empty request payload of the given payload and certificate type. -/
def certreq_payload_create_type (type : payload_type_t) (cert_type : certificate_type_t) :
    certreq_payload_t :=
  { type := type, cert_type := cert_type, keyids := [], dn := none }

/-- Modelled from the spec: `add_keyid` appends a key-id to the key-id set. -/
def certreq_payload_t.add_keyid (req : certreq_payload_t) (keyid : chunk_t) :
    certreq_payload_t :=
  { req with keyids := req.keyids ++ [keyid] }

/-- Modelled from the spec: `set_dn` sets the single distinguished name. -/
def certreq_payload_t.set_dn (req : certreq_payload_t) (dn : chunk_t) : certreq_payload_t :=
  { req with dn := dn }

/-- Source `add_certreq`: add the key-id (or the subject) of a certificate to the
request payload `*req`, creating the payload on the first certificate that
carries the CA flag and a public key. -/
def add_certreq (this : private_ike_cert_pre_t) (req : Option certreq_payload_t)
    (cert : certificate_t) : Option certreq_payload_t :=
  match cert.type with
  | CERT_X509 =>
    if cert.x509_flags &&& X509_CA = 0 then req
    else
      match cert.public_key with
      | none => req
      | some pub =>
        let r := match req with
          | none => certreq_payload_create_type this.cert_req_payload_type CERT_X509
          | some r => r
        if this.cert_req_payload_type = CERTIFICATE_REQUEST then
          match pub.keyid_pubkey_info_sha1 with
          | some keyid => some (r.add_keyid keyid)
          | none => some r
        else some (r.set_dn cert.subject.encoded)
  | _ => req

/-- Source `add_certreqs`: add the CA certificates of an authentication config to
the request. -/
def add_certreqs (this : private_ike_cert_pre_t) (req : Option certreq_payload_t)
    (auth : auth_cfg_t) : Option certreq_payload_t :=
  auth.foldl (fun req entry =>
    match entry with
    | (AUTH_RULE_CA_CERT, .cert cert) => add_certreq this req cert
    | _ => req) req

/-- Source `build_certreqs`: build the certificate request of the newer
generation. -/
def build_certreqs (lib : library_t) (this : private_ike_cert_pre_t)
    (message : message_t) : private_ike_cert_pre_t × message_t :=
  if !this.ike_sa.ike_cfg.send_certreq then (this, message)
  else
    let req : Option certreq_payload_t := none
    let req := match this.ike_sa.peer_cfg with
      | some peer_cfg =>
        (peer_cfg.create_auth_cfg_enumerator false).foldl (add_certreqs this) req
      | none => req
    let req := match req with
      | none =>
        (lib.credmgr.create_cert_enumerator CERT_ANY KEY_ANY none true).foldl
          (add_certreq this) req
      | some r => some r
    match req with
    | some r =>
      let message := message.add_payload (.certreq r)
      if lib.settings.get_bool "charon.hash_and_url" false then
        ({ this with do_http_lookup := true },
          message.add_notify false HTTP_CERT_LOOKUP_SUPPORTED none)
      else (this, message)
    | none => (this, message)

/-- Pointer handed to `message->add_payload` by the legacy builder: the request
payload `*req` under construction, or the address of the variable holding it
(`req` inside `add_certreqs_v1`, cast to a payload pointer). -/
inductive req_pointer_t
  | req_payload
  | req_variable
  deriving DecidableEq, Repr

/-- Locals of the legacy builder: the request payload `*req` (NULL until the
first eligible certificate) and the pointers handed to `message->add_payload`
so far, in call order. The message keeps pointers, so what it holds for
`req_payload` is the request as it stands when the builder returns. -/
structure certreqs_v1_t where
  req : Option certreq_payload_t
  added : List req_pointer_t
  deriving DecidableEq, Repr

/-- Source `add_certreqs_v1`: per CA rule of the config, `add_certreq` and then
`add_payload` guarded by `if (req)`, where `req` is the never-NULL address of
the caller's variable. -/
def add_certreqs_v1 (this : private_ike_cert_pre_t) (st : certreqs_v1_t)
    (auth : auth_cfg_t) : certreqs_v1_t :=
  auth.foldl (fun st entry =>
    match entry with
    | (AUTH_RULE_CA_CERT, .cert cert) =>
      { req := add_certreq this st.req cert,
        added := st.added ++ [req_pointer_t.req_variable] }
    | _ => st) st

/-- Fallback loop of `build_certreqs_v1` over the trusted certificates. -/
def certreqs_v1_fallback (this : private_ike_cert_pre_t) (st : certreqs_v1_t)
    (cert : certificate_t) : certreqs_v1_t :=
  let req := add_certreq this st.req cert
  match req with
  | some _ => { req := req, added := st.added ++ [req_pointer_t.req_payload] }
  | none => { req := req, added := st.added }

/-- Payload behind a pointer handed to the message, once the builder returns. -/
def req_pointer_t.deref (req : Option certreq_payload_t) : req_pointer_t → payload_t
  | .req_payload =>
    match req with
    | some r => .certreq r
    | none => .not_a_payload
  | .req_variable => .not_a_payload

/-- Locals of `build_certreqs_v1` when it returns (sending enabled). -/
def build_certreqs_v1_locals (lib : library_t) (this : private_ike_cert_pre_t) :
    certreqs_v1_t :=
  let st : certreqs_v1_t := { req := none, added := [] }
  let st := match this.ike_sa.peer_cfg with
    | some peer_cfg =>
      match peer_cfg.create_auth_cfg_enumerator false with
      | auth :: _ =>
        let st := add_certreqs_v1 this st auth
        match st.req with
        | some _ => { st with added := st.added ++ [req_pointer_t.req_payload] }
        | none => st
      | [] => st
    | none => st
  match st.req with
  | none =>
    (lib.credmgr.create_cert_enumerator CERT_ANY KEY_ANY none true).foldl
      (certreqs_v1_fallback this) st
  | some _ => st

/-- Source `build_certreqs_v1`: build the certificate requests of the legacy
generation. -/
def build_certreqs_v1 (lib : library_t) (this : private_ike_cert_pre_t)
    (message : message_t) : private_ike_cert_pre_t × message_t :=
  if !this.ike_sa.ike_cfg.send_certreq then (this, message)
  else
    let st := build_certreqs_v1_locals lib this
    (this, (st.added.map (req_pointer_t.deref st.req)).foldl message_t.add_payload message)

/-! ### Final round and legacy authentication method -/

/-- Source `final_auth`: is this the final authentication round? -/
def final_auth (message : message_t) : Bool :=
  if (message.get_payload AUTHENTICATION).isNone then false
  else if (message.get_notify ANOTHER_AUTH_FOLLOWS).isSome then false
  else true

/-- Payload loop of `check_auth_method`: status and state when the loop ends,
which is at the first negotiation-proposal payload of the legacy generation. -/
def check_auth_method_loop :
    List payload_t → status_t × cp_state_t → status_t × cp_state_t
  | [], st => st
  | payload :: rest, st =>
    if payload.get_type = SECURITY_ASSOCIATION_V1 then
      match payload with
      | .sa sa_payload =>
        let status := match sa_payload.get_auth_method with
          | AUTH_RSA | AUTH_XAUTH_INIT_RSA | AUTH_XAUTH_RESP_RSA => NEED_MORE
          | _ => SUCCESS
        (status, CP_SA)
      | _ => check_auth_method_loop rest st
    else check_auth_method_loop rest st

/-- Source `check_auth_method`: does the advertised method make the task handle
certificates? -/
def check_auth_method (this : private_ike_cert_pre_t) (message : message_t) :
    status_t × private_ike_cert_pre_t :=
  let r := check_auth_method_loop message.payloads (SUCCESS, this.state)
  let this := { this with state := r.2 }
  if r.1 ≠ NEED_MORE then (r.1, { this with state := CP_NO_CERT, final := true })
  else (r.1, this)

/-! ### Task methods -/

/-- Source `build_i`. -/
def build_i (lib : library_t) (this : private_ike_cert_pre_t) (message : message_t) :
    status_t × private_ike_cert_pre_t × message_t :=
  if message.message_id = 1 then (NEED_MORE, build_certreqs lib this message)
  else (NEED_MORE, this, message)

/-- Source `process_r`. -/
def process_r (lib : library_t) (this : private_ike_cert_pre_t) (message : message_t) :
    status_t × private_ike_cert_pre_t :=
  let this :=
    if message.exchange_type ≠ IKE_SA_INIT then
      process_certs lib (process_certreqs lib this message) message
    else this
  (NEED_MORE, { this with final := final_auth message })

/-- Source `build_r`. -/
def build_r (lib : library_t) (this : private_ike_cert_pre_t) (message : message_t) :
    status_t × private_ike_cert_pre_t × message_t :=
  let r := if message.exchange_type = IKE_SA_INIT then build_certreqs lib this message
    else (this, message)
  if r.1.final then (SUCCESS, r) else (NEED_MORE, r)

/-- Source `process_i`. -/
def process_i (lib : library_t) (this : private_ike_cert_pre_t) (message : message_t) :
    status_t × private_ike_cert_pre_t :=
  let this := if message.exchange_type = IKE_SA_INIT then process_certreqs lib this message
    else this
  let this := process_certs lib this message
  if final_auth message then (SUCCESS, this) else (NEED_MORE, this)

/-- Source `process_r_v1`. -/
def process_r_v1 (lib : library_t) (this : private_ike_cert_pre_t) (message : message_t) :
    status_t × private_ike_cert_pre_t :=
  match message.exchange_type with
  | ID_PROT =>
    match this.state with
    | CP_INIT => (NEED_MORE, (check_auth_method this message).2)
    | CP_SA =>
      (NEED_MORE, { process_certreqs lib this message with state := CP_SA_POST })
    | CP_SA_POST =>
      (NEED_MORE, { process_certs lib (process_certreqs lib this message) message with
        state := CP_REQ_SENT, final := true })
    | _ => (NEED_MORE, this)
  | AGGRESSIVE =>
    let r := check_auth_method this message
    let this :=
      if r.1 = NEED_MORE then process_certs lib (process_certreqs lib r.2 message) message
      else r.2
    (NEED_MORE, { this with final := true })
  | _ => (NEED_MORE, this)

/-- Source `process_i_v1`. -/
def process_i_v1 (_lib : library_t) (this : private_ike_cert_pre_t) (_message : message_t) :
    status_t × private_ike_cert_pre_t :=
  (FAILED, this)

/-- Source `build_r_v1`. The aggressive case falls through to the default one. -/
def build_r_v1 (lib : library_t) (this : private_ike_cert_pre_t) (message : message_t) :
    status_t × private_ike_cert_pre_t × message_t :=
  let r := match message.exchange_type with
    | ID_PROT =>
      if this.state = CP_SA_POST then build_certreqs_v1 lib this message
      else (this, message)
    | AGGRESSIVE =>
      if this.state ≠ CP_NO_CERT then build_certreqs_v1 lib this message
      else (this, message)
    | _ => (this, message)
  if r.1.final then (SUCCESS, r) else (NEED_MORE, r)

/-- Source `build_i_v1`. -/
def build_i_v1 (_lib : library_t) (this : private_ike_cert_pre_t) (message : message_t) :
    status_t × private_ike_cert_pre_t × message_t :=
  (FAILED, this, message)

/-- Source `ike_cert_pre_create`: the task with the pair of methods of its
generation and role; every member not assigned is zero. -/
def ike_cert_pre_create (ike_sa : ike_sa_t) (initiator : Bool) : private_ike_cert_pre_t :=
  if ike_sa.version = IKEV2 then
    { build := if initiator then .build_i else .build_r,
      process := if initiator then .process_i else .process_r,
      ike_sa := ike_sa, initiator := initiator, do_http_lookup := false, final := false,
      state := CP_INIT, cert_req_payload_type := CERTIFICATE_REQUEST }
  else
    { build := if initiator then .build_i_v1 else .build_r_v1,
      process := if initiator then .process_i_v1 else .process_r_v1,
      ike_sa := ike_sa, initiator := initiator, do_http_lookup := false, final := false,
      state := CP_INIT, cert_req_payload_type := CERTIFICATE_REQUEST_V1 }

/-- Call of `task.build` through the pointer bound at construction. -/
def task_build (lib : library_t) (this : private_ike_cert_pre_t) (message : message_t) :
    status_t × private_ike_cert_pre_t × message_t :=
  match this.build with
  | .build_i => build_i lib this message
  | .build_r => build_r lib this message
  | .build_i_v1 => build_i_v1 lib this message
  | .build_r_v1 => build_r_v1 lib this message

/-- Call of `task.process` through the pointer bound at construction. -/
def task_process (lib : library_t) (this : private_ike_cert_pre_t) (message : message_t) :
    status_t × private_ike_cert_pre_t :=
  match this.process with
  | .process_i => process_i lib this message
  | .process_r => process_r lib this message
  | .process_i_v1 => process_i_v1 lib this message
  | .process_r_v1 => process_r_v1 lib this message

/-! ## Vocabulary of the properties -/

/-- Certificate payloads of a message (either generation), in payload order. -/
def cert_payloads (message : message_t) : List cert_payload_t :=
  message.payloads.filterMap (fun p =>
    match p with
    | .cert c => if c.type = CERTIFICATE ∨ c.type = CERTIFICATE_V1 then some c else none
    | _ => none)

/-- Successful classification of a certificate payload: signature encoding with
an embedded certificate, or an accepted hash-and-url encoding whose hash is
known to the credential manager. -/
def classifies (lib : library_t) (do_http_lookup : Bool) (cp : cert_payload_t)
    (cert : certificate_t) : Prop :=
  (cp.get_cert_encoding = ENC_X509_SIGNATURE ∧ cp.get_cert = some cert) ∨
  (cp.get_cert_encoding = ENC_X509_HASH_AND_URL ∧ do_http_lookup = true ∧
    ∃ hash, cp.get_hash = some hash ∧
      lib.credmgr.get_cert CERT_X509 KEY_ANY { type := ID_KEY_ID, encoded := some hash }
        false = some cert)

/-- Entries recorded for a run of classified certificates: the first under the
end-entity kind when `first` is set, every other one under the intermediate
kind. -/
def cert_entries (first : Bool) : List certificate_t → auth_cfg_t
  | [] => []
  | c :: cs =>
    ((if first then AUTH_HELPER_SUBJECT_CERT else AUTH_HELPER_IM_CERT), auth_value_t.cert c) ::
      cs.map (fun c => (AUTH_HELPER_IM_CERT, auth_value_t.cert c))

/-- Lookup of a requested key-id among the trusted X.509 certificates. -/
def resolve_keyid (lib : library_t) (keyid : chunk_t) : Option certificate_t :=
  lib.credmgr.get_cert CERT_X509 KEY_ANY { type := ID_KEY_ID, encoded := keyid } true

/-- Is the payload a hash-and-url encoded certificate payload? -/
def is_hash_and_url_cert (p : payload_t) : Bool :=
  match p with
  | .cert c =>
    decide ((c.type = CERTIFICATE ∨ c.type = CERTIFICATE_V1) ∧
      c.get_cert_encoding = ENC_X509_HASH_AND_URL)
  | _ => false

/-- Does the message contain a payload of the given type? -/
def contains_payload (message : message_t) (type : payload_type_t) : Prop :=
  ∃ p ∈ message.payloads, p.get_type = type

/-- Does the message contain a notification of the given type? -/
def contains_notify (message : message_t) (type : notify_type_t) : Prop :=
  ∃ n : notify_payload_t, payload_t.notify n ∈ message.payloads ∧ n.notify_type = type

/-- The negotiation-proposal payload of a legacy message: its first payload of
type SECURITY_ASSOCIATION_V1. -/
def first_sa_v1 : List payload_t → Option sa_payload_t
  | [] => none
  | .sa q :: rest => if q.type = SECURITY_ASSOCIATION_V1 then some q else first_sa_v1 rest
  | _ :: rest => first_sa_v1 rest

/-- Authentication methods that make the legacy task handle certificates: RSA
signature, XAUTH-initiator-RSA and XAUTH-responder-RSA. -/
def cert_method (m : auth_method_t) : Bool :=
  decide (m = AUTH_RSA ∨ m = AUTH_XAUTH_INIT_RSA ∨ m = AUTH_XAUTH_RESP_RSA)

/-- Certificates named by the CA rules of an authentication config, in order. -/
def ca_certs (auth : auth_cfg_t) : List certificate_t :=
  auth.filterMap (fun entry =>
    match entry with
    | (AUTH_RULE_CA_CERT, .cert cert) => some cert
    | _ => none)

/-- Certificate for which `add_certreq` produces request content: X.509 with
the CA flag set and a public key present. -/
def has_ca_key (cert : certificate_t) : Bool :=
  decide (cert.type = CERT_X509) && decide (cert.x509_flags &&& X509_CA ≠ 0) &&
    cert.public_key.isSome

/-- Key-id requested for a certificate by the newer generation: the SHA-1
public-key-info fingerprint of an X.509 certificate with the CA flag and a
public key, when it can be derived. -/
def ca_keyid (cert : certificate_t) : Option chunk_t :=
  if has_ca_key cert then cert.public_key.bind (fun pub => pub.keyid_pubkey_info_sha1)
  else none

/-- Eligible CA of the newer generation with fingerprint `fp`: X.509, CA flag
set, public key present, fingerprint derivable. -/
def eligible_ca (cert : certificate_t) (fp : chunk_t) : Prop :=
  cert.type = CERT_X509 ∧ cert.x509_flags &&& X509_CA ≠ 0 ∧
    ∃ pub, cert.public_key = some pub ∧ pub.keyid_pubkey_info_sha1 = some fp

/-- Does the negotiation-proposal payload of the message advertise a method that
makes the legacy task handle certificates? -/
def advertises_cert_method (message : message_t) : Bool :=
  match first_sa_v1 message.payloads with
  | some q => cert_method q.get_auth_method
  | none => false

/-- The message without its hash-and-url encoded certificate payloads. -/
def drop_hash_and_url (message : message_t) : message_t :=
  { message with payloads := message.payloads.filter (fun p => !is_hash_and_url_cert p) }

/-- Payloads a builder call appended to the outgoing message. -/
def added_payloads (before after : message_t) : List payload_t :=
  after.payloads.drop before.payloads.length

/-- Is the payload the notification HTTP_CERT_LOOKUP_SUPPORTED? -/
def is_http_cert_lookup_notify (p : payload_t) : Bool :=
  match p with
  | .notify n => decide (n.notify_type = HTTP_CERT_LOOKUP_SUPPORTED)
  | _ => false

/-- Is the payload a certificate-request payload object? -/
def is_certreq (p : payload_t) : Bool :=
  match p with
  | .certreq _ => true
  | _ => false

/-- Certificates named by the CA rules of the authentication configs that
`build_certreqs` enumerates from the peer config, in order (none without a
peer config). -/
def peer_ca_certs (this : private_ike_cert_pre_t) : List certificate_t :=
  match this.ike_sa.peer_cfg with
  | some peer_cfg => (peer_cfg.create_auth_cfg_enumerator false).flatMap ca_certs
  | none => []

/-- Certificates enumerated from the trusted store by the fallback loop. -/
def store_certs (lib : library_t) : List certificate_t :=
  lib.credmgr.create_cert_enumerator CERT_ANY KEY_ANY none true

/-- Certificates the request of the newer generation is built from: those of the
peer config when one of them makes `add_certreq` create the request payload,
those of the trusted store otherwise. -/
def certreq_source (lib : library_t) (this : private_ike_cert_pre_t) : List certificate_t :=
  if (peer_ca_certs this).any has_ca_key then peer_ca_certs this else store_certs lib

/-- Result of attaching the request payload `r` in `build_certreqs`. -/
def attach_certreq (lib : library_t) (this : private_ike_cert_pre_t) (message : message_t)
    (r : certreq_payload_t) : private_ike_cert_pre_t × message_t :=
  if lib.settings.get_bool "charon.hash_and_url" false then
    ({ this with do_http_lookup := true },
      { message with payloads := message.payloads ++
          [payload_t.certreq r,
            payload_t.notify { notify_type := HTTP_CERT_LOOKUP_SUPPORTED, data := none }] })
  else (this, { message with payloads := message.payloads ++ [payload_t.certreq r] })

/-- Certificate or URL that `process_certs` records from a payload under the
end-entity or the intermediate kind. -/
inductive cert_item
  | cert (c : certificate_t)
  | url (s : String)
  deriving DecidableEq, Repr

/-- What a payload yields for the end-entity and intermediate kinds: a
certificate payload with signature encoding, or with hash-and-url encoding when
`do_http_lookup` is set, yields the certificate of the classifier, or else (for
hash-and-url) its URL; every other payload yields nothing. -/
def payload_item (lib : library_t) (do_http_lookup : Bool) (p : payload_t) :
    Option cert_item :=
  match p with
  | .cert cp =>
    if (cp.type = CERTIFICATE ∨ cp.type = CERTIFICATE_V1) ∧
        (cp.get_cert_encoding = ENC_X509_SIGNATURE ∨
          (cp.get_cert_encoding = ENC_X509_HASH_AND_URL ∧ do_http_lookup = true)) then
      match try_get_cert lib cp with
      | some c => some (.cert c)
      | none =>
        if cp.get_cert_encoding = ENC_X509_HASH_AND_URL then cp.get_url.map cert_item.url
        else none
    else none
  | _ => none

/-- Entry recorded for a revocation list carried by a certificate payload. -/
def crl_entry (p : payload_t) : Option (auth_rule_t × auth_value_t) :=
  match p with
  | .cert cp =>
    if (cp.type = CERTIFICATE ∨ cp.type = CERTIFICATE_V1) ∧ cp.get_cert_encoding = ENC_CRL then
      cp.get_cert.map (fun c => (AUTH_HELPER_REVOCATION_CERT, auth_value_t.cert c))
    else none
  | _ => none

/-- Entry for a certificate or URL, under the end-entity kind or under the
intermediate kind. -/
def item_entry (end_entity : Bool) : cert_item → auth_rule_t × auth_value_t
  | .cert c =>
    (if end_entity then AUTH_HELPER_SUBJECT_CERT else AUTH_HELPER_IM_CERT, auth_value_t.cert c)
  | .url s =>
    (if end_entity then AUTH_HELPER_SUBJECT_HASH_URL else AUTH_HELPER_IM_HASH_URL,
      auth_value_t.str s)

/-- Entry recorded for a payload, if any, when the end-entity slot is free
(`first`) or taken. -/
def payload_entry (lib : library_t) (do_http_lookup first : Bool) (p : payload_t) :
    Option (auth_rule_t × auth_value_t) :=
  match payload_item lib do_http_lookup p with
  | some item => some (item_entry first item)
  | none => crl_entry p

/-- Entries recorded for a run of payloads: the end-entity slot is taken by the
first payload that yields a certificate or URL. -/
def recorded_entries (lib : library_t) (do_http_lookup : Bool) :
    Bool → List payload_t → auth_cfg_t
  | _, [] => []
  | first, p :: ps =>
    (payload_entry lib do_http_lookup first p).toList ++
      recorded_entries lib do_http_lookup
        (first && (payload_item lib do_http_lookup p).isNone) ps

/-- Is the entry of an end-entity kind? -/
def is_end_entity_kind (e : auth_rule_t × auth_value_t) : Bool :=
  decide (e.1 = AUTH_HELPER_SUBJECT_CERT ∨ e.1 = AUTH_HELPER_SUBJECT_HASH_URL)

/-- Rounds of a responder: for each pair of an incoming and an outgoing message,
a process call on the first and then a build call on the second; the result
lists, per round, the state after the process call, the status of the build
call and the outgoing message after it. -/
def run_rounds (lib : library_t) :
    private_ike_cert_pre_t → List (message_t × message_t) →
      List (cp_state_t × status_t × message_t)
  | _, [] => []
  | this, (incoming, outgoing) :: rest =>
    let p := task_process lib this incoming
    let b := task_build lib p.2 outgoing
    (p.2.state, b.1, b.2.2) :: run_rounds lib b.2.1 rest

/-- Call of a task method by the scheduler: a build call on an outgoing message
or a process call on an incoming one. -/
inductive call_t
  | build (message : message_t)
  | process (message : message_t)
  deriving DecidableEq, Repr

/-- The task after one call through the methods bound at construction. -/
def run_call (lib : library_t) (this : private_ike_cert_pre_t) : call_t → private_ike_cert_pre_t
  | .build message => (task_build lib this message).2.1
  | .process message => (task_process lib this message).2

/-- The task after a sequence of calls. -/
def run_calls (lib : library_t) (this : private_ike_cert_pre_t) (calls : List call_t) :
    private_ike_cert_pre_t :=
  calls.foldl (run_call lib) this

/-- Message of the latest process call of a sequence of calls, if any. -/
def last_processed : List call_t → Option message_t
  | [] => none
  | call :: rest =>
    match last_processed rest with
    | some message => some message
    | none =>
      match call with
      | .process message => some message
      | .build _ => none

/-! ## Sample data for concrete runs -/

/-- Sample CA certificate number `n`: X.509, CA flag, public key with key-id `[n]`. -/
def sample_ca (n : Nat) : certificate_t :=
  { type := CERT_X509, subject := { type := ID_DER_ASN1_DN, encoded := some [48, n] },
    public_key := some { key := n, keyid_pubkey_info_sha1 := some (some [n]) },
    x509_flags := X509_CA }

/-- Sample end-entity certificate number `n`: X.509 without the CA flag. -/
def sample_ee (n : Nat) : certificate_t :=
  { type := CERT_X509, subject := { type := ID_DER_ASN1_DN, encoded := some [49, n] },
    public_key := some { key := n, keyid_pubkey_info_sha1 := some (some [n]) },
    x509_flags := 0 }

/-- Does a sample certificate answer to an identity (subject or key-id)? -/
def sample_matches (id : identification_t) (cert : certificate_t) : Bool :=
  decide (cert.subject = id) ||
    (decide (id.type = ID_KEY_ID) &&
      match cert.public_key with
      | some pub => decide (pub.keyid_pubkey_info_sha1 = some id.encoded)
      | none => false)

/-- Sample library context: a credential manager over a list of certificates
(all trusted) and the value of the setting `charon.hash_and_url`. -/
def sample_lib (certs : List certificate_t) (hash_and_url : Bool) : library_t :=
  { credmgr :=
      { get_cert := fun type _ id _ =>
          certs.find? (fun c =>
            (decide (type = CERT_ANY) || decide (c.type = type)) && sample_matches id c),
        create_cert_enumerator := fun type _ _ _ =>
          certs.filter (fun c => decide (type = CERT_ANY) || decide (c.type = type)) },
    settings :=
      { get_bool := fun key dflt => if key = "charon.hash_and_url" then hash_and_url else dflt } }

/-- Sample session of the given generation, sending certificate requests. -/
def sample_sa (version : ike_version_t) (peer_cfg : Option peer_cfg_t) : ike_sa_t :=
  { version := version, ike_cfg := { send_certreq := true }, peer_cfg := peer_cfg,
    my_auth := [], other_auth := [], cond_certreq_seen := false, ext_hash_and_url := false }

/-- Sample signature-encoded certificate payload of the newer generation. -/
def sample_cert_payload (cert : certificate_t) : cert_payload_t :=
  { type := CERTIFICATE, get_cert_encoding := ENC_X509_SIGNATURE, get_cert := some cert,
    get_hash := none, get_url := none }

/-- Sample hash-and-url encoded certificate payload of the newer generation. -/
def sample_hash_url_payload (hash : List Nat) (url : Option String) : cert_payload_t :=
  { type := CERTIFICATE, get_cert_encoding := ENC_X509_HASH_AND_URL, get_cert := none,
    get_hash := some hash, get_url := url }

/-- Sample CA certificate number `n` whose public key yields no fingerprint. -/
def sample_ca_without_keyid (n : Nat) : certificate_t :=
  { type := CERT_X509, subject := { type := ID_DER_ASN1_DN, encoded := some [50, n] },
    public_key := some { key := n, keyid_pubkey_info_sha1 := none },
    x509_flags := X509_CA }

/-! ## Importing certificates: C1, C3 -/

theorem process_cert_payload_classifies (lib : library_t) (d : Bool) (cp : cert_payload_t)
    (cert : certificate_t) (auth : auth_cfg_t) (first : Bool)
    (h : classifies lib d cp cert) :
    process_cert_payload lib d cp (auth, first) = (auth ++ cert_entries first [cert], false) := by
  rcases h with ⟨he, hc⟩ | ⟨he, hd, hash, hh, hl⟩
  · cases first <;>
      simp [process_cert_payload, process_cert_x509, try_get_cert, he, hc, cert_entries,
        auth_cfg_add]
  · cases first <;>
      simp [process_cert_payload, process_cert_x509, try_get_cert, he, hd, hh, hl,
        cert_entries, auth_cfg_add, identification_create_from_encoding]

theorem cert_entries_cons (first : Bool) (c : certificate_t) (cs : List certificate_t) :
    cert_entries first (c :: cs) = cert_entries first [c] ++ cert_entries false cs := by
  cases cs <;> simp [cert_entries]

theorem process_certs_loop_classifies (lib : library_t) (d : Bool) :
    ∀ (ps : List payload_t) (certs : List certificate_t) (auth : auth_cfg_t) (first : Bool),
      List.Forall₂ (classifies lib d) (cert_payloads ⟨IKE_AUTH, 0, ps⟩) certs →
      ps.foldl (process_certs_payload lib d) (auth, first) =
        (auth ++ cert_entries first certs, first && certs.isEmpty) := by
  intro ps
  induction ps with
  | nil =>
    intro certs auth first h
    simp [cert_payloads] at h
    subst h
    simp [cert_entries]
  | cons p ps ih =>
    intro certs auth first h
    have skip : cert_payloads ⟨IKE_AUTH, 0, p :: ps⟩ = cert_payloads ⟨IKE_AUTH, 0, ps⟩ →
        process_certs_payload lib d (auth, first) p = (auth, first) →
        (p :: ps).foldl (process_certs_payload lib d) (auth, first) =
          (auth ++ cert_entries first certs, first && certs.isEmpty) := by
      intro h1 h2
      rw [List.foldl_cons, h2]
      exact ih certs auth first (h1 ▸ h)
    cases p with
    | cert c =>
      by_cases ht : c.type = CERTIFICATE ∨ c.type = CERTIFICATE_V1
      · have hc : cert_payloads ⟨IKE_AUTH, 0, payload_t.cert c :: ps⟩ =
            c :: cert_payloads ⟨IKE_AUTH, 0, ps⟩ := by
          simp [cert_payloads, List.filterMap_cons, ht]
        rw [hc] at h
        cases h with
        | cons hcl hrest =>
          rename_i cert certs
          rw [List.foldl_cons]
          have hstep : process_certs_payload lib d (auth, first) (payload_t.cert c) =
              (auth ++ cert_entries first [cert], false) := by
            simp only [process_certs_payload, payload_t.get_type, ht, if_true]
            exact process_cert_payload_classifies lib d c cert auth first hcl
          rw [hstep, ih certs _ false hrest, cert_entries_cons first cert certs]
          simp
      · apply skip
        · simp [cert_payloads, List.filterMap_cons, ht]
        · simp [process_certs_payload, payload_t.get_type, ht]
    | sa q =>
      apply skip
      · simp [cert_payloads, List.filterMap_cons]
      · unfold process_certs_payload; split <;> rfl
    | certreq q =>
      apply skip
      · simp [cert_payloads, List.filterMap_cons]
      · unfold process_certs_payload; split <;> rfl
    | notify q =>
      apply skip
      · simp [cert_payloads, List.filterMap_cons]
      · unfold process_certs_payload; split <;> rfl
    | unknown q =>
      apply skip
      · simp [cert_payloads, List.filterMap_cons]
      · unfold process_certs_payload; split <;> rfl
    | not_a_payload =>
      apply skip
      · simp [cert_payloads, List.filterMap_cons]
      · unfold process_certs_payload; split <;> rfl

theorem cert_payloads_payloads (message : message_t) :
    cert_payloads message = cert_payloads ⟨IKE_AUTH, 0, message.payloads⟩ := rfl

/-- C1: when the K >= 1 certificate payloads of a message all classify
successfully, to the certificates `c :: cs` in payload order, `process_certs`
appends exactly K entries to the authentication context of the peer: `c` under
AUTH_HELPER_SUBJECT_CERT, then each certificate of `cs` under
AUTH_HELPER_IM_CERT, in payload order; nothing else of the task changes. This
holds for every task record, whatever its generation and earlier calls. -/
theorem process_certs_first_end_entity_rest_intermediate (lib : library_t)
    (this : private_ike_cert_pre_t) (message : message_t) (c : certificate_t)
    (cs : List certificate_t)
    (h : List.Forall₂ (classifies lib this.do_http_lookup) (cert_payloads message) (c :: cs)) :
    process_certs lib this message =
      { this with ike_sa := { this.ike_sa with other_auth :=
          (this.ike_sa.other_auth ++
            (AUTH_HELPER_SUBJECT_CERT, auth_value_t.cert c) ::
              cs.map (fun c => (AUTH_HELPER_IM_CERT, auth_value_t.cert c))) } } ∧
    ((process_certs lib this message).ike_sa.other_auth).length =
      this.ike_sa.other_auth.length + (cert_payloads message).length := by
  have hl := List.Forall₂.length_eq h
  rw [cert_payloads_payloads] at h
  have := process_certs_loop_classifies lib this.do_http_lookup message.payloads (c :: cs)
    this.ike_sa.other_auth true h
  constructor
  · simp [process_certs, this, cert_entries]
  · simp [process_certs, this, cert_entries, hl]

/-- C1 at a concrete message: a signature payload, a notification and an accepted
hash-and-url payload whose hash the credential manager knows. -/
theorem process_certs_first_end_entity_rest_intermediate_witness :
    process_certs (sample_lib [sample_ca 7] false)
        { ike_cert_pre_create (sample_sa IKEV2 none) true with do_http_lookup := true }
        ⟨IKE_AUTH, 1, [.cert (sample_cert_payload (sample_ee 3)),
          .notify ⟨INITIAL_CONTACT, none⟩, .cert (sample_hash_url_payload [7] none)]⟩ =
      { ike_cert_pre_create (sample_sa IKEV2 none) true with
        do_http_lookup := true,
        ike_sa := { sample_sa IKEV2 none with other_auth :=
          [(AUTH_HELPER_SUBJECT_CERT, .cert (sample_ee 3)),
            (AUTH_HELPER_IM_CERT, .cert (sample_ca 7))] } } ∧
    ((process_certs (sample_lib [sample_ca 7] false)
        { ike_cert_pre_create (sample_sa IKEV2 none) true with do_http_lookup := true }
        ⟨IKE_AUTH, 1, [.cert (sample_cert_payload (sample_ee 3)),
          .notify ⟨INITIAL_CONTACT, none⟩,
          .cert (sample_hash_url_payload [7] none)]⟩).ike_sa.other_auth).length = 0 + 2 :=
  process_certs_first_end_entity_rest_intermediate (sample_lib [sample_ca 7] false)
    { ike_cert_pre_create (sample_sa IKEV2 none) true with do_http_lookup := true }
    ⟨IKE_AUTH, 1, [.cert (sample_cert_payload (sample_ee 3)),
      .notify ⟨INITIAL_CONTACT, none⟩, .cert (sample_hash_url_payload [7] none)]⟩
    (sample_ee 3) [sample_ca 7]
    (List.Forall₂.cons (Or.inl ⟨rfl, rfl⟩)
      (List.Forall₂.cons (Or.inr ⟨rfl, rfl, [7], rfl, by decide⟩) List.Forall₂.nil))

/-! ## Reading certificate requests: C2 -/

theorem add_certificate_keyid (lib : library_t) (auth : auth_cfg_t) (keyid : chunk_t) :
    add_certificate lib auth keyid ID_KEY_ID =
      match resolve_keyid lib keyid with
      | some cert => (true, auth ++ [(AUTH_RULE_CA_CERT, auth_value_t.cert cert)])
      | none => (false, auth) := by
  simp only [add_certificate, resolve_keyid, identification_create_from_encoding, auth_cfg_add]

theorem certreq_keyid_loop_spec (lib : library_t) :
    ∀ (keyids : List chunk_t) (auth : auth_cfg_t) (unknown : Nat), unknown < 2 ^ 32 →
      certreq_keyid_loop lib keyids (auth, unknown) =
        (auth ++ (keyids.filterMap (resolve_keyid lib)).map
            (fun c => (AUTH_RULE_CA_CERT, auth_value_t.cert c)),
          (unknown + (keyids.length - (keyids.filterMap (resolve_keyid lib)).length))
            % 2 ^ 32) := by
  intro keyids
  induction keyids with
  | nil =>
    intro auth unknown hu
    simp only [certreq_keyid_loop, List.filterMap_nil, List.map_nil, List.append_nil,
      List.length_nil, Nat.sub_self, Nat.add_zero, Nat.mod_eq_of_lt hu]
  | cons k ks ih =>
    intro auth unknown hu
    have hle := List.length_filterMap_le (resolve_keyid lib) ks
    rw [certreq_keyid_loop, add_certificate_keyid]
    cases hk : resolve_keyid lib k with
    | none =>
      simp only [Bool.not_false, if_true, List.filterMap_cons, hk]
      rw [ih auth ((unknown + 1) % 2 ^ 32) (Nat.mod_lt _ (by norm_num))]
      congr 1
      simp only [List.length_cons]
      norm_num
      omega
    | some cert =>
      simp only [Bool.not_true, List.filterMap_cons, hk, Bool.false_eq_true, if_false]
      rw [ih (auth ++ [(AUTH_RULE_CA_CERT, auth_value_t.cert cert)]) unknown hu]
      simp

/-- C2: a newer-generation certificate-request payload of certificate type
X.509 advertises N key-ids (N below the range of the 32-bit counter), of which
M resolve among the trusted X.509 certificates. The iteration of
`process_certreqs` over that payload appends to the local authentication
context exactly the M resolved certificates under AUTH_RULE_CA_CERT, in key-id
order, and nothing for the other key-ids; the counter `unknown` of the payload
ends at N - M. -/
theorem process_certreqs_keyids_resolved_and_unknown (lib : library_t)
    (this : private_ike_cert_pre_t) (certreq : certreq_payload_t)
    (htype : certreq.type = CERTIFICATE_REQUEST) (hx509 : certreq.cert_type = CERT_X509)
    (hlen : certreq.keyids.length < 2 ^ 32) :
    (process_certreqs_payload lib this (.certreq certreq)).ike_sa.my_auth =
      this.ike_sa.my_auth ++ (certreq.keyids.filterMap (resolve_keyid lib)).map
        (fun c => (AUTH_RULE_CA_CERT, auth_value_t.cert c)) ∧
    (process_certreq lib CERTIFICATE_REQUEST certreq this.ike_sa.my_auth).2 =
      certreq.keyids.length - (certreq.keyids.filterMap (resolve_keyid lib)).length ∧
    (process_certreqs lib this ⟨IKE_AUTH, 1, [.certreq certreq]⟩).ike_sa.my_auth =
      this.ike_sa.my_auth ++ (certreq.keyids.filterMap (resolve_keyid lib)).map
        (fun c => (AUTH_RULE_CA_CERT, auth_value_t.cert c)) := by
  have hloop := certreq_keyid_loop_spec lib certreq.keyids this.ike_sa.my_auth 0 (by norm_num)
  have hbody : process_certreq lib CERTIFICATE_REQUEST certreq this.ike_sa.my_auth =
      (this.ike_sa.my_auth ++ (certreq.keyids.filterMap (resolve_keyid lib)).map
          (fun c => (AUTH_RULE_CA_CERT, auth_value_t.cert c)),
        certreq.keyids.length - (certreq.keyids.filterMap (resolve_keyid lib)).length) := by
    simp only [process_certreq, hx509, ne_eq, not_true_eq_false, if_false, if_true, hloop]
    congr 1
    rw [Nat.zero_add]
    exact Nat.mod_eq_of_lt (lt_of_le_of_lt (Nat.sub_le _ _) hlen)
  have hstep : (process_certreqs_payload lib this (.certreq certreq)).ike_sa.my_auth =
      this.ike_sa.my_auth ++ (certreq.keyids.filterMap (resolve_keyid lib)).map
        (fun c => (AUTH_RULE_CA_CERT, auth_value_t.cert c)) := by
    simp only [process_certreqs_payload, payload_t.get_type, htype, hbody]
  refine ⟨hstep, ?_, ?_⟩
  · rw [hbody]
  · simpa [process_certreqs] using hstep

/-- C2 at a concrete payload: three key-ids, the first and the last known. -/
theorem process_certreqs_keyids_resolved_and_unknown_witness :
    (process_certreqs_payload (sample_lib [sample_ca 1, sample_ca 2] false)
        (ike_cert_pre_create (sample_sa IKEV2 none) false)
        (.certreq ⟨CERTIFICATE_REQUEST, CERT_X509, [some [2], some [9], some [1]],
          none⟩)).ike_sa.my_auth =
      [(AUTH_RULE_CA_CERT, .cert (sample_ca 2)), (AUTH_RULE_CA_CERT, .cert (sample_ca 1))] ∧
    (process_certreq (sample_lib [sample_ca 1, sample_ca 2] false) CERTIFICATE_REQUEST
        ⟨CERTIFICATE_REQUEST, CERT_X509, [some [2], some [9], some [1]], none⟩ []).2 =
      1 ∧
    (process_certreqs (sample_lib [sample_ca 1, sample_ca 2] false)
        (ike_cert_pre_create (sample_sa IKEV2 none) false)
        ⟨IKE_AUTH, 1, [.certreq ⟨CERTIFICATE_REQUEST, CERT_X509,
          [some [2], some [9], some [1]], none⟩]⟩).ike_sa.my_auth =
      [(AUTH_RULE_CA_CERT, .cert (sample_ca 2)), (AUTH_RULE_CA_CERT, .cert (sample_ca 1))] :=
  process_certreqs_keyids_resolved_and_unknown (sample_lib [sample_ca 1, sample_ca 2] false)
    (ike_cert_pre_create (sample_sa IKEV2 none) false)
    ⟨CERTIFICATE_REQUEST, CERT_X509, [some [2], some [9], some [1]], none⟩ rfl rfl
    (by norm_num)

/-! ## Hash-and-url payloads that are not accepted: C3 -/

theorem process_certs_payload_hash_and_url_refused (lib : library_t) (p : payload_t)
    (st : auth_cfg_t × Bool) (h : is_hash_and_url_cert p = true) :
    process_certs_payload lib false st p = st := by
  cases p with
  | cert c =>
    simp only [is_hash_and_url_cert, decide_eq_true_eq] at h
    simp [process_certs_payload, payload_t.get_type, h.1, process_cert_payload, h.2]
  | sa q => simp [is_hash_and_url_cert] at h
  | certreq q => simp [is_hash_and_url_cert] at h
  | notify q => simp [is_hash_and_url_cert] at h
  | unknown q => simp [is_hash_and_url_cert] at h
  | not_a_payload => simp [is_hash_and_url_cert] at h

theorem process_certs_loop_drop (lib : library_t) :
    ∀ (ps : List payload_t) (st : auth_cfg_t × Bool),
      ps.foldl (process_certs_payload lib false) st =
        (ps.filter (fun p => !is_hash_and_url_cert p)).foldl
          (process_certs_payload lib false) st := by
  intro ps
  induction ps with
  | nil => intro st; rfl
  | cons p ps ih =>
    intro st
    cases hp : is_hash_and_url_cert p with
    | true =>
      rw [List.foldl_cons, process_certs_payload_hash_and_url_refused lib p st hp,
        List.filter_cons_of_neg (by simp [hp])]
      exact ih st
    | false =>
      rw [List.foldl_cons, List.filter_cons_of_pos (by simp [hp]), List.foldl_cons]
      exact ih _

theorem process_certs_loop_all_hash_and_url (lib : library_t) :
    ∀ (ps : List payload_t) (st : auth_cfg_t × Bool),
      (∀ cp ∈ cert_payloads ⟨IKE_AUTH, 0, ps⟩, cp.get_cert_encoding = ENC_X509_HASH_AND_URL) →
      ps.foldl (process_certs_payload lib false) st = st := by
  intro ps
  induction ps with
  | nil => intro st _; rfl
  | cons p ps ih =>
    intro st h
    have hrest : ∀ cp ∈ cert_payloads ⟨IKE_AUTH, 0, ps⟩,
        cp.get_cert_encoding = ENC_X509_HASH_AND_URL := by
      intro cp hcp
      apply h cp
      simp only [cert_payloads, List.filterMap_cons] at hcp ⊢
      split
      · exact hcp
      · exact List.mem_cons_of_mem _ hcp
    have hstep : process_certs_payload lib false st p = st := by
      by_cases hp : is_hash_and_url_cert p = true
      · exact process_certs_payload_hash_and_url_refused lib p st hp
      · cases p with
        | cert c =>
          by_cases ht : c.type = CERTIFICATE ∨ c.type = CERTIFICATE_V1
          · have : c.get_cert_encoding = ENC_X509_HASH_AND_URL := by
              apply h c
              simp [cert_payloads, List.filterMap_cons, ht]
            simp [is_hash_and_url_cert, ht, this] at hp
          · simp [process_certs_payload, payload_t.get_type, ht]
        | sa q => unfold process_certs_payload; split <;> rfl
        | certreq q => unfold process_certs_payload; split <;> rfl
        | notify q => unfold process_certs_payload; split <;> rfl
        | unknown q => unfold process_certs_payload; split <;> rfl
        | not_a_payload => unfold process_certs_payload; split <;> rfl
    rw [List.foldl_cons, hstep]
    exact ih st hrest

/-- C3: for a task whose flag `do_http_lookup` is false, `process_certs` on a
message gives the same result as on the message without its hash-and-url
encoded certificate payloads; and when every certificate payload of the message
is hash-and-url encoded, the call changes nothing: the authentication context
(and the whole task record) stays as it was. -/
theorem process_certs_hash_and_url_dropped_when_not_accepted (lib : library_t)
    (this : private_ike_cert_pre_t) (message : message_t)
    (h : this.do_http_lookup = false) :
    process_certs lib this message = process_certs lib this (drop_hash_and_url message) ∧
    ((∀ cp ∈ cert_payloads message, cp.get_cert_encoding = ENC_X509_HASH_AND_URL) →
      process_certs lib this message = this ∧
      (process_certs lib this message).ike_sa.other_auth = this.ike_sa.other_auth) := by
  constructor
  · simp only [process_certs, drop_hash_and_url, h]
    rw [process_certs_loop_drop lib message.payloads]
  · intro hall
    have e : message.payloads.foldl (process_certs_payload lib this.do_http_lookup)
        (this.ike_sa.other_auth, true) = (this.ike_sa.other_auth, true) := by
      rw [h]
      exact process_certs_loop_all_hash_and_url lib message.payloads _ hall
    have : process_certs lib this message = this := by
      simp only [process_certs, e]
    rw [this]
    exact ⟨rfl, rfl⟩

/-- C3 at a concrete message: a refused hash-and-url payload between two
signature payloads. -/
theorem process_certs_hash_and_url_dropped_when_not_accepted_witness :
    process_certs (sample_lib [sample_ca 7] true) (ike_cert_pre_create (sample_sa IKEV2 none) true)
        ⟨IKE_AUTH, 1, [.cert (sample_cert_payload (sample_ee 3)),
          .cert (sample_hash_url_payload [7] (some "http://a/7")),
          .cert (sample_cert_payload (sample_ca 2))]⟩ =
      process_certs (sample_lib [sample_ca 7] true)
        (ike_cert_pre_create (sample_sa IKEV2 none) true)
        ⟨IKE_AUTH, 1, [.cert (sample_cert_payload (sample_ee 3)),
          .cert (sample_cert_payload (sample_ca 2))]⟩ :=
  (process_certs_hash_and_url_dropped_when_not_accepted (sample_lib [sample_ca 7] true)
    (ike_cert_pre_create (sample_sa IKEV2 none) true)
    ⟨IKE_AUTH, 1, [.cert (sample_cert_payload (sample_ee 3)),
      .cert (sample_hash_url_payload [7] (some "http://a/7")),
      .cert (sample_cert_payload (sample_ca 2))]⟩ rfl).1

/-! ## Final-round detector: C4 -/

theorem get_payload_isNone_iff (message : message_t) (type : payload_type_t) :
    (message.get_payload type).isNone = true ↔ ¬ contains_payload message type := by
  simp [message_t.get_payload, contains_payload]

theorem get_notify_isSome_iff (message : message_t) (type : notify_type_t) :
    (message.get_notify type).isSome = true ↔ contains_notify message type := by
  simp only [message_t.get_notify, List.findSome?_isSome_iff, contains_notify]
  constructor
  · rintro ⟨p, hp, hs⟩
    cases p with
    | notify n =>
      by_cases hn : n.notify_type = type
      · exact ⟨n, hp, hn⟩
      · simp [hn] at hs
    | sa q => simp at hs
    | cert q => simp at hs
    | certreq q => simp at hs
    | unknown q => simp at hs
    | not_a_payload => simp at hs
  · rintro ⟨n, hp, hn⟩
    exact ⟨payload_t.notify n, hp, by simp [hn]⟩

theorem final_auth_eq_true_iff (message : message_t) :
    final_auth message = true ↔
      contains_payload message AUTHENTICATION ∧
        ¬ contains_notify message ANOTHER_AUTH_FOLLOWS := by
  have h1 := get_payload_isNone_iff message AUTHENTICATION
  have h2 := get_notify_isSome_iff message ANOTHER_AUTH_FOLLOWS
  unfold final_auth
  cases hp : (message.get_payload AUTHENTICATION).isNone <;>
    cases hn : (message.get_notify ANOTHER_AUTH_FOLLOWS).isSome <;>
    simp [hp, hn] at h1 h2 ⊢ <;> tauto

/-- C4: `final_auth` returns true exactly when the message contains an
AUTHENTICATION payload and no ANOTHER_AUTH_FOLLOWS notification; hence a message
to which that notification is added (by `add_notify`), or any message holding it
anywhere among its payloads, is not final, in particular when the message
without it is final. -/
theorem final_auth_iff_auth_without_another_auth_follows (message : message_t) :
    (final_auth message = true ↔
      contains_payload message AUTHENTICATION ∧
        ¬ contains_notify message ANOTHER_AUTH_FOLLOWS) ∧
    (∀ data, final_auth (message.add_notify false ANOTHER_AUTH_FOLLOWS data) = false) ∧
    (∀ data pre post,
      final_auth { message with
        payloads := pre ++ [.notify ⟨ANOTHER_AUTH_FOLLOWS, data⟩] ++ post } = false) := by
  refine ⟨final_auth_eq_true_iff message, ?_, ?_⟩
  · intro data
    rw [← Bool.not_eq_true, final_auth_eq_true_iff]
    intro h
    apply h.2
    exact ⟨⟨ANOTHER_AUTH_FOLLOWS, data⟩,
      by simp [message_t.add_notify, message_t.add_payload], rfl⟩
  · intro data pre post
    rw [← Bool.not_eq_true, final_auth_eq_true_iff]
    intro h
    apply h.2
    exact ⟨⟨ANOTHER_AUTH_FOLLOWS, data⟩, by simp, rfl⟩

/-! ## Legacy authentication method and state machine: C5 -/

theorem check_auth_method_loop_spec :
    ∀ (ps : List payload_t) (st : status_t × cp_state_t),
      check_auth_method_loop ps st =
        match first_sa_v1 ps with
        | some q => (if cert_method q.get_auth_method then NEED_MORE else SUCCESS, CP_SA)
        | none => st := by
  intro ps
  induction ps with
  | nil => intro st; rfl
  | cons p ps ih =>
    intro st
    cases p with
    | sa q =>
      by_cases ht : q.type = SECURITY_ASSOCIATION_V1
      · simp only [check_auth_method_loop, payload_t.get_type, ht, if_true, first_sa_v1]
        cases q.get_auth_method <;> simp [cert_method]
      · simp only [check_auth_method_loop, payload_t.get_type, ht, if_false, first_sa_v1]
        exact ih st
    | cert q =>
      simp only [check_auth_method_loop, first_sa_v1]
      split <;> exact ih st
    | certreq q =>
      simp only [check_auth_method_loop, first_sa_v1]
      split <;> exact ih st
    | notify q =>
      simp only [check_auth_method_loop, first_sa_v1]
      split <;> exact ih st
    | unknown q =>
      simp only [check_auth_method_loop, first_sa_v1]
      split <;> exact ih st
    | not_a_payload =>
      simp only [check_auth_method_loop, first_sa_v1]
      split <;> exact ih st

theorem check_auth_method_spec (this : private_ike_cert_pre_t) (message : message_t) :
    check_auth_method this message =
      match first_sa_v1 message.payloads with
      | some q =>
        if cert_method q.get_auth_method then (NEED_MORE, { this with state := CP_SA })
        else (SUCCESS, { this with state := CP_NO_CERT, final := true })
      | none => (SUCCESS, { this with state := CP_NO_CERT, final := true }) := by
  unfold check_auth_method
  rw [check_auth_method_loop_spec]
  cases first_sa_v1 message.payloads with
  | none => simp
  | some q => cases hq : cert_method q.get_auth_method <;> simp [hq]

/-- C5: a legacy responder task (bound to `process_r_v1`) in state CP_INIT
processes a main-mode (ID_PROT) message whose negotiation-proposal payload
(the first SECURITY_ASSOCIATION_V1 payload) is `sa_payload`. If it advertises
RSA signature, XAUTH-initiator-RSA or XAUTH-responder-RSA, the state becomes
CP_SA and the final flag keeps its value (the call does not set it); if it
advertises any other method, the state becomes CP_NO_CERT and final becomes
true. The call returns NEED_MORE either way. -/
theorem process_r_v1_init_main_mode (lib : library_t) (this : private_ike_cert_pre_t)
    (message : message_t) (sa_payload : sa_payload_t)
    (hbound : this.process = process_method_t.process_r_v1)
    (hstate : this.state = CP_INIT) (hexch : message.exchange_type = ID_PROT)
    (hsa : first_sa_v1 message.payloads = some sa_payload) :
    (task_process lib this message).1 = NEED_MORE ∧
    ((sa_payload.get_auth_method = AUTH_RSA ∨ sa_payload.get_auth_method = AUTH_XAUTH_INIT_RSA ∨
        sa_payload.get_auth_method = AUTH_XAUTH_RESP_RSA) →
      (task_process lib this message).2.state = CP_SA ∧
      (task_process lib this message).2.final = this.final) ∧
    (¬ (sa_payload.get_auth_method = AUTH_RSA ∨
        sa_payload.get_auth_method = AUTH_XAUTH_INIT_RSA ∨
        sa_payload.get_auth_method = AUTH_XAUTH_RESP_RSA) →
      (task_process lib this message).2.state = CP_NO_CERT ∧
      (task_process lib this message).2.final = true) := by
  have hp : task_process lib this message = (NEED_MORE, (check_auth_method this message).2) := by
    simp [task_process, hbound, process_r_v1, hexch, hstate]
  rw [hp, check_auth_method_spec, hsa]
  refine ⟨rfl, ?_, ?_⟩
  · intro hm
    have : cert_method sa_payload.get_auth_method = true := by simp [cert_method, hm]
    simp [this]
  · intro hm
    have : cert_method sa_payload.get_auth_method = false := by simp [cert_method, hm]
    simp [this]

/-- C5 at concrete messages: a fresh legacy responder task, an RSA-signature
proposal and a pre-shared-key proposal. -/
theorem process_r_v1_init_main_mode_witness :
    ((task_process (sample_lib [] false) (ike_cert_pre_create (sample_sa IKEV1 none) false)
        ⟨ID_PROT, 0, [.sa ⟨SECURITY_ASSOCIATION_V1, AUTH_RSA⟩]⟩).2.state = CP_SA ∧
      (task_process (sample_lib [] false) (ike_cert_pre_create (sample_sa IKEV1 none) false)
        ⟨ID_PROT, 0, [.sa ⟨SECURITY_ASSOCIATION_V1, AUTH_RSA⟩]⟩).2.final = false) ∧
    ((task_process (sample_lib [] false) (ike_cert_pre_create (sample_sa IKEV1 none) false)
        ⟨ID_PROT, 0, [.sa ⟨SECURITY_ASSOCIATION_V1, AUTH_PSK⟩]⟩).2.state = CP_NO_CERT ∧
      (task_process (sample_lib [] false) (ike_cert_pre_create (sample_sa IKEV1 none) false)
        ⟨ID_PROT, 0, [.sa ⟨SECURITY_ASSOCIATION_V1, AUTH_PSK⟩]⟩).2.final = true) :=
  ⟨(process_r_v1_init_main_mode (sample_lib [] false)
      (ike_cert_pre_create (sample_sa IKEV1 none) false)
      ⟨ID_PROT, 0, [.sa ⟨SECURITY_ASSOCIATION_V1, AUTH_RSA⟩]⟩ ⟨SECURITY_ASSOCIATION_V1, AUTH_RSA⟩
      rfl rfl rfl rfl).2.1 (Or.inl rfl),
    (process_r_v1_init_main_mode (sample_lib [] false)
      (ike_cert_pre_create (sample_sa IKEV1 none) false)
      ⟨ID_PROT, 0, [.sa ⟨SECURITY_ASSOCIATION_V1, AUTH_PSK⟩]⟩ ⟨SECURITY_ASSOCIATION_V1, AUTH_PSK⟩
      rfl rfl rfl rfl).2.2 (by decide)⟩

/-! ## Building the request of the newer generation: C6 -/

theorem add_certreqs_entry (this : private_ike_cert_pre_t) (req : Option certreq_payload_t)
    (entry : auth_rule_t × auth_value_t) :
    (match entry with
      | (AUTH_RULE_CA_CERT, auth_value_t.cert cert) => add_certreq this req cert
      | _ => req) = (ca_certs [entry]).foldl (add_certreq this) req := by
  rcases entry with ⟨rule, value⟩
  cases rule <;> cases value <;> rfl

theorem ca_certs_cons (entry : auth_rule_t × auth_value_t) (auth : auth_cfg_t) :
    ca_certs (entry :: auth) = ca_certs [entry] ++ ca_certs auth := by
  unfold ca_certs
  rw [← List.filterMap_append]
  rfl

theorem add_certreqs_eq_foldl (this : private_ike_cert_pre_t) :
    ∀ (auth : auth_cfg_t) (req : Option certreq_payload_t),
      add_certreqs this req auth = (ca_certs auth).foldl (add_certreq this) req := by
  intro auth
  induction auth with
  | nil => intro req; rfl
  | cons entry auth ih =>
    intro req
    rw [ca_certs_cons, List.foldl_append, ← add_certreqs_entry, ← ih]
    rfl

theorem add_certreq_newer (this : private_ike_cert_pre_t)
    (hnew : this.cert_req_payload_type = CERTIFICATE_REQUEST)
    (req : Option certreq_payload_t) (cert : certificate_t) :
    add_certreq this req cert =
      if has_ca_key cert then
        some { req.getD (certreq_payload_create_type CERTIFICATE_REQUEST CERT_X509) with
          keyids := (req.getD (certreq_payload_create_type CERTIFICATE_REQUEST CERT_X509)).keyids
            ++ (ca_keyid cert).toList }
      else req := by
  unfold add_certreq ca_keyid has_ca_key
  cases hty : cert.type <;> simp [hnew]
  by_cases hf : cert.x509_flags &&& X509_CA = 0
  · simp [hf]
  · cases hpub : cert.public_key with
    | none => simp [hf]
    | some pub =>
      cases hk : pub.keyid_pubkey_info_sha1 <;> cases req <;>
        simp [hf, hk, certreq_payload_t.add_keyid]

theorem add_certreq_foldl_newer (this : private_ike_cert_pre_t)
    (hnew : this.cert_req_payload_type = CERTIFICATE_REQUEST) :
    ∀ (certs : List certificate_t) (req : Option certreq_payload_t),
      certs.foldl (add_certreq this) req =
        if certs.any has_ca_key then
          some { req.getD (certreq_payload_create_type CERTIFICATE_REQUEST CERT_X509) with
            keyids := (req.getD (certreq_payload_create_type CERTIFICATE_REQUEST CERT_X509)).keyids
              ++ certs.filterMap ca_keyid }
        else req := by
  intro certs
  induction certs with
  | nil => intro req; rfl
  | cons c cs ih =>
    intro req
    rw [List.foldl_cons, ih, add_certreq_newer this hnew]
    have hk : ∀ c, has_ca_key c = false → ca_keyid c = none := by
      intro c h; simp [ca_keyid, h]
    have hnil : cs.any has_ca_key = false → cs.filterMap ca_keyid = [] := by
      intro h
      simp only [List.any_eq_false] at h
      simp only [List.filterMap_eq_nil_iff]
      intro a ha
      exact hk a (by simpa using h a ha)
    cases hc : has_ca_key c
    · cases hcs : cs.any has_ca_key <;> simp [hc, hcs, hk c hc]
    · cases hcs : cs.any has_ca_key <;> cases hkc : ca_keyid c <;>
        simp [hc, hcs, hkc, List.filterMap_cons, hnil]

theorem eligible_ca_keyid (cert : certificate_t) (fp : chunk_t) (h : eligible_ca cert fp) :
    has_ca_key cert = true ∧ ca_keyid cert = some fp := by
  obtain ⟨h1, h2, pub, h3, h4⟩ := h
  have : has_ca_key cert = true := by simp [has_ca_key, h1, h2, h3]
  exact ⟨this, by simp [ca_keyid, this, h3, h4]⟩

/-- C6: the newer-generation builder (`cert_req_payload_type` is
CERTIFICATE_REQUEST) runs with sending of certificate requests enabled under a
peer config whose two authentication configs name, in their CA rules, one
eligible CA each (`ca1` with fingerprint `fp1`, `ca2` with fingerprint `fp2`).
Then `build_certreqs` attaches exactly one certificate-request payload, whose
key-id list is exactly `[fp1, fp2]` (config order), followed only by the
hash-and-url notification when that setting is enabled; the credential manager
is arbitrary, so no key-id of another trusted CA of the store is included. -/
theorem build_certreqs_two_peer_cas (lib : library_t) (this : private_ike_cert_pre_t)
    (message : message_t) (peer_cfg : peer_cfg_t) (a1 a2 : auth_cfg_t)
    (ca1 ca2 : certificate_t) (fp1 fp2 : chunk_t)
    (hnew : this.cert_req_payload_type = CERTIFICATE_REQUEST)
    (hsend : this.ike_sa.ike_cfg.send_certreq = true)
    (hpeer : this.ike_sa.peer_cfg = some peer_cfg)
    (hcfgs : peer_cfg.create_auth_cfg_enumerator false = [a1, a2])
    (h1 : ca_certs a1 = [ca1]) (h2 : ca_certs a2 = [ca2])
    (he1 : eligible_ca ca1 fp1) (he2 : eligible_ca ca2 fp2) :
    (build_certreqs lib this message).2.payloads =
      message.payloads ++
        payload_t.certreq
          { type := CERTIFICATE_REQUEST, cert_type := CERT_X509, keyids := [fp1, fp2],
            dn := none } ::
        (if lib.settings.get_bool "charon.hash_and_url" false then
          [payload_t.notify { notify_type := HTTP_CERT_LOOKUP_SUPPORTED, data := none }]
        else []) := by
  obtain ⟨hk1, hf1⟩ := eligible_ca_keyid ca1 fp1 he1
  obtain ⟨hk2, hf2⟩ := eligible_ca_keyid ca2 fp2 he2
  have hreq : [a1, a2].foldl (add_certreqs this) none =
      some { type := CERTIFICATE_REQUEST, cert_type := CERT_X509, keyids := [fp1, fp2],
             dn := none } := by
    simp only [List.foldl_cons, List.foldl_nil, add_certreqs_eq_foldl, h1, h2,
      add_certreq_newer this hnew, hk1, hk2, hf1, hf2]
    simp [certreq_payload_create_type]
  unfold build_certreqs
  simp only [hsend, hpeer, hcfgs, hreq]
  cases lib.settings.get_bool "charon.hash_and_url" false <;>
    simp [message_t.add_payload, message_t.add_notify]

/-- C6 at a concrete configuration: two configs naming CA 1 and CA 2, a store
that also trusts CA 3. -/
theorem build_certreqs_two_peer_cas_witness :
    (build_certreqs (sample_lib [sample_ca 3, sample_ca 1, sample_ca 2] false)
        (ike_cert_pre_create
          (sample_sa IKEV2 (some ⟨[], [[(AUTH_RULE_CA_CERT, .cert (sample_ca 1))],
            [(AUTH_RULE_IDENTITY, .id ⟨ID_FQDN, some [97]⟩),
              (AUTH_RULE_CA_CERT, .cert (sample_ca 2))]]⟩)) true)
        ⟨IKE_AUTH, 1, []⟩).2.payloads =
      [payload_t.certreq
        { type := CERTIFICATE_REQUEST, cert_type := CERT_X509,
          keyids := [some [1], some [2]], dn := none }] :=
  build_certreqs_two_peer_cas (sample_lib [sample_ca 3, sample_ca 1, sample_ca 2] false)
    (ike_cert_pre_create
      (sample_sa IKEV2 (some ⟨[], [[(AUTH_RULE_CA_CERT, .cert (sample_ca 1))],
        [(AUTH_RULE_IDENTITY, .id ⟨ID_FQDN, some [97]⟩),
          (AUTH_RULE_CA_CERT, .cert (sample_ca 2))]]⟩)) true)
    ⟨IKE_AUTH, 1, []⟩
    ⟨[], [[(AUTH_RULE_CA_CERT, .cert (sample_ca 1))],
      [(AUTH_RULE_IDENTITY, .id ⟨ID_FQDN, some [97]⟩),
        (AUTH_RULE_CA_CERT, .cert (sample_ca 2))]]⟩
    [(AUTH_RULE_CA_CERT, .cert (sample_ca 1))]
    [(AUTH_RULE_IDENTITY, .id ⟨ID_FQDN, some [97]⟩), (AUTH_RULE_CA_CERT, .cert (sample_ca 2))]
    (sample_ca 1) (sample_ca 2) (some [1]) (some [2]) rfl rfl rfl rfl rfl rfl
    ⟨rfl, by decide, _, rfl, rfl⟩ ⟨rfl, by decide, _, rfl, rfl⟩

/-! ## Statuses of the bound methods: C7 -/

theorem ite_status {α : Type} (c : Prop) [Decidable c] (r : α) :
    (if c then (SUCCESS, r) else (NEED_MORE, r)).1 = NEED_MORE ∨
      (if c then (SUCCESS, r) else (NEED_MORE, r)).1 = SUCCESS := by
  by_cases h : c <;> simp [h]

theorem build_status (lib : library_t) (this : private_ike_cert_pre_t) (message : message_t) :
    (build_i lib this message).1 = NEED_MORE ∧
    ((build_r lib this message).1 = NEED_MORE ∨ (build_r lib this message).1 = SUCCESS) ∧
    (build_i_v1 lib this message).1 = FAILED ∧
    ((build_r_v1 lib this message).1 = NEED_MORE ∨
      (build_r_v1 lib this message).1 = SUCCESS) := by
  refine ⟨?_, ?_, rfl, ?_⟩
  · unfold build_i; split <;> rfl
  · exact ite_status _ _
  · exact ite_status _ _

theorem process_status (lib : library_t) (this : private_ike_cert_pre_t)
    (message : message_t) :
    ((process_i lib this message).1 = NEED_MORE ∨ (process_i lib this message).1 = SUCCESS) ∧
    (process_r lib this message).1 = NEED_MORE ∧
    (process_i_v1 lib this message).1 = FAILED ∧
    (process_r_v1 lib this message).1 = NEED_MORE := by
  refine ⟨?_, rfl, rfl, ?_⟩
  · exact ite_status _ _
  · unfold process_r_v1
    split
    · split <;> rfl
    · rfl
    · rfl

/-- C7: take the task built by `ike_cert_pre_create` for a session and a role,
in any later state (any values of the session contents, of `do_http_lookup`, of
`final` and of `state`), and any message. A build call returns FAILED if and
only if the task was created for the legacy generation in the initiator role,
and so does a process call; in every other case (newer generation, legacy
responder) both calls return NEED_MORE or SUCCESS. -/
theorem failed_iff_legacy_initiator (lib : library_t) (ike_sa sa_now : ike_sa_t)
    (initiator d f : Bool) (st : cp_state_t) (message : message_t) :
    ((task_build lib
        { ike_cert_pre_create ike_sa initiator with
          ike_sa := sa_now, do_http_lookup := d, final := f, state := st } message).1 = FAILED ↔
      (ike_sa.version ≠ IKEV2 ∧ initiator = true)) ∧
    ((task_process lib
        { ike_cert_pre_create ike_sa initiator with
          ike_sa := sa_now, do_http_lookup := d, final := f, state := st } message).1 = FAILED ↔
      (ike_sa.version ≠ IKEV2 ∧ initiator = true)) ∧
    (¬ (ike_sa.version ≠ IKEV2 ∧ initiator = true) →
      ((task_build lib
          { ike_cert_pre_create ike_sa initiator with
            ike_sa := sa_now, do_http_lookup := d, final := f, state := st } message).1 = NEED_MORE ∨
        (task_build lib
          { ike_cert_pre_create ike_sa initiator with
            ike_sa := sa_now, do_http_lookup := d, final := f, state := st } message).1 = SUCCESS) ∧
      ((task_process lib
          { ike_cert_pre_create ike_sa initiator with
            ike_sa := sa_now, do_http_lookup := d, final := f, state := st } message).1 = NEED_MORE ∨
        (task_process lib
          { ike_cert_pre_create ike_sa initiator with
            ike_sa := sa_now, do_http_lookup := d, final := f, state := st } message).1 =
              SUCCESS)) := by
  have hb := fun this => build_status lib this message
  have hp := fun this => process_status lib this message
  cases hv : ike_sa.version <;> cases initiator
  · -- legacy responder
    simp only [ike_cert_pre_create, hv, task_build, task_process]
    obtain ⟨-, -, -, h4⟩ := hb { ike_cert_pre_create ike_sa false with
      ike_sa := sa_now, do_http_lookup := d, final := f, state := st }
    obtain ⟨-, -, -, h8⟩ := hp { ike_cert_pre_create ike_sa false with
      ike_sa := sa_now, do_http_lookup := d, final := f, state := st }
    simp only [ike_cert_pre_create, hv] at h4 h8
    simp only [reduceCtorEq, if_false] at h4 h8 ⊢
    rcases h4 with h4 | h4 <;> simp [h4, h8]
  · -- legacy initiator
    simp [ike_cert_pre_create, hv, task_build, task_process, build_i_v1, process_i_v1]
  · -- newer responder
    simp only [ike_cert_pre_create, hv, task_build, task_process]
    obtain ⟨-, h2, -, -⟩ := hb { ike_cert_pre_create ike_sa false with
      ike_sa := sa_now, do_http_lookup := d, final := f, state := st }
    obtain ⟨-, h6, -, -⟩ := hp { ike_cert_pre_create ike_sa false with
      ike_sa := sa_now, do_http_lookup := d, final := f, state := st }
    simp only [ike_cert_pre_create, hv] at h2 h6
    simp only [if_true, reduceCtorEq, if_false] at h2 h6 ⊢
    rcases h2 with h2 | h2 <;> simp [h2, h6]
  · -- newer initiator
    simp only [ike_cert_pre_create, hv, task_build, task_process]
    obtain ⟨h1, -, -, -⟩ := hb { ike_cert_pre_create ike_sa true with
      ike_sa := sa_now, do_http_lookup := d, final := f, state := st }
    obtain ⟨h5, -, -, -⟩ := hp { ike_cert_pre_create ike_sa true with
      ike_sa := sa_now, do_http_lookup := d, final := f, state := st }
    simp only [ike_cert_pre_create, hv] at h1 h5
    simp only [if_true] at h1 h5 ⊢
    rcases h5 with h5 | h5 <;> simp [h1, h5]

/-! ## Terminal states of the legacy progression: C8 -/

theorem process_certreqs_payload_frame (lib : library_t) (this : private_ike_cert_pre_t)
    (payload : payload_t) :
    process_certreqs_payload lib this payload =
      { this with ike_sa := (process_certreqs_payload lib this payload).ike_sa } := by
  unfold process_certreqs_payload
  split
  · split <;> rfl
  · split <;> rfl
  · split
    · split <;> rfl
    · rfl
  · rfl

theorem process_certreqs_frame (lib : library_t) (message : message_t) :
    ∀ this : private_ike_cert_pre_t,
      process_certreqs lib this message =
        { this with ike_sa := (process_certreqs lib this message).ike_sa } := by
  unfold process_certreqs
  induction message.payloads with
  | nil => intro this; rfl
  | cons p ps ih =>
    intro this
    rw [List.foldl_cons, ih, process_certreqs_payload_frame]

theorem process_certs_frame (lib : library_t) (this : private_ike_cert_pre_t)
    (message : message_t) :
    process_certs lib this message =
      { this with ike_sa := (process_certs lib this message).ike_sa } := rfl

theorem process_both_state (lib : library_t) (this : private_ike_cert_pre_t)
    (message : message_t) :
    (process_certs lib (process_certreqs lib this message) message).state = this.state := by
  rw [process_certs_frame, process_certreqs_frame]

theorem build_certreqs_v1_task (lib : library_t) (this : private_ike_cert_pre_t)
    (message : message_t) : (build_certreqs_v1 lib this message).1 = this := by
  unfold build_certreqs_v1
  split <;> rfl

theorem build_r_v1_task (lib : library_t) (this : private_ike_cert_pre_t)
    (message : message_t) : (build_r_v1 lib this message).2.1 = this := by
  unfold build_r_v1
  have h : ∀ r : private_ike_cert_pre_t × message_t, r.1 = this →
      (if r.1.final then (SUCCESS, r) else (NEED_MORE, r)).2.1 = this := by
    intro r hr
    split <;> exact hr
  apply h
  split
  · split
    · exact build_certreqs_v1_task lib this message
    · rfl
  · split
    · exact build_certreqs_v1_task lib this message
    · rfl
  · rfl

theorem process_r_v1_aggressive_state (lib : library_t) (this : private_ike_cert_pre_t)
    (message : message_t) (hexch : message.exchange_type = AGGRESSIVE) :
    (process_r_v1 lib this message).2.state =
      if advertises_cert_method message then CP_SA else CP_NO_CERT := by
  have hc := check_auth_method_spec this message
  cases h : first_sa_v1 message.payloads with
  | none =>
    simp only [h] at hc
    simp [process_r_v1, hexch, hc, advertises_cert_method, h]
  | some q =>
    cases hq : cert_method q.get_auth_method
    · simp only [h, hq, Bool.false_eq_true, if_false] at hc
      simp [process_r_v1, hexch, hc, advertises_cert_method, h, hq]
    · simp only [h, hq, if_true] at hc
      simp [process_r_v1, hexch, hc, advertises_cert_method, h, hq, process_both_state]

/-- C8 fails as stated: a legacy responder task in state CP_REQ_SENT that
processes an aggressive-mode message without a negotiation proposal ends in
CP_NO_CERT, and one in state CP_NO_CERT that processes an aggressive-mode
message advertising RSA signatures ends in CP_SA. -/
theorem terminal_states_left_in_aggressive_mode :
    (task_process (sample_lib [] false)
        { ike_cert_pre_create (sample_sa IKEV1 none) false with state := CP_REQ_SENT }
        ⟨AGGRESSIVE, 0, []⟩).2.state = CP_NO_CERT ∧
    (task_process (sample_lib [] false)
        { ike_cert_pre_create (sample_sa IKEV1 none) false with state := CP_NO_CERT }
        ⟨AGGRESSIVE, 0, [.sa ⟨SECURITY_ASSOCIATION_V1, AUTH_RSA⟩]⟩).2.state = CP_SA := by
  constructor <;> rfl

/-- C8 as amended: for a task created for the legacy generation (either role)
whose state `st` is CP_NO_CERT or CP_REQ_SENT, no build call changes the state,
on any message, and no process call changes it on a message whose exchange type
is not AGGRESSIVE (main mode in particular). A process call of the responder on
an aggressive-mode message runs the method check again: the state is then
unchanged exactly when it was CP_NO_CERT and the message advertises no method
that requires certificates. -/
theorem terminal_states_outside_aggressive (lib : library_t) (ike_sa sa_now : ike_sa_t)
    (initiator d f : Bool) (st : cp_state_t) (message : message_t)
    (hlegacy : ike_sa.version ≠ IKEV2) (hst : st = CP_NO_CERT ∨ st = CP_REQ_SENT) :
    (task_build lib
        { ike_cert_pre_create ike_sa initiator with
          ike_sa := sa_now, do_http_lookup := d, final := f, state := st } message).2.1.state =
      st ∧
    (message.exchange_type ≠ AGGRESSIVE →
      (task_process lib
        { ike_cert_pre_create ike_sa initiator with
          ike_sa := sa_now, do_http_lookup := d, final := f, state := st } message).2.state =
        st) ∧
    (message.exchange_type = AGGRESSIVE → initiator = false →
      ((task_process lib
        { ike_cert_pre_create ike_sa initiator with
          ike_sa := sa_now, do_http_lookup := d, final := f, state := st } message).2.state =
        st ↔ (st = CP_NO_CERT ∧ advertises_cert_method message = false))) := by
  cases initiator
  · simp only [ike_cert_pre_create, hlegacy, if_false, task_build, task_process,
      Bool.false_eq_true]
    refine ⟨?_, ?_, ?_⟩
    · rw [build_r_v1_task]
    · intro hexch
      unfold process_r_v1
      split
      · rcases hst with h | h <;> subst h <;> rfl
      · rename_i heq
        exact absurd heq hexch
      · rfl
    · intro hexch _
      rw [process_r_v1_aggressive_state lib _ message hexch]
      rcases hst with h | h <;> subst h <;>
        cases advertises_cert_method message <;> simp
  · simp [ike_cert_pre_create, hlegacy, task_build, task_process, build_i_v1, process_i_v1]

/-- C8 as amended, at a concrete task: a legacy responder in state CP_REQ_SENT
and a main-mode message advertising RSA signatures. -/
theorem terminal_states_outside_aggressive_witness :
    (task_build (sample_lib [sample_ca 1] false)
        { ike_cert_pre_create (sample_sa IKEV1 none) false with
          ike_sa := sample_sa IKEV1 none, do_http_lookup := false, final := true,
          state := CP_REQ_SENT }
        ⟨ID_PROT, 0, [.sa ⟨SECURITY_ASSOCIATION_V1, AUTH_RSA⟩]⟩).2.1.state = CP_REQ_SENT ∧
    (task_process (sample_lib [sample_ca 1] false)
        { ike_cert_pre_create (sample_sa IKEV1 none) false with
          ike_sa := sample_sa IKEV1 none, do_http_lookup := false, final := true,
          state := CP_REQ_SENT }
        ⟨ID_PROT, 0, [.sa ⟨SECURITY_ASSOCIATION_V1, AUTH_RSA⟩]⟩).2.state = CP_REQ_SENT :=
  ⟨(terminal_states_outside_aggressive (sample_lib [sample_ca 1] false) (sample_sa IKEV1 none)
      (sample_sa IKEV1 none) false false true CP_REQ_SENT
      ⟨ID_PROT, 0, [.sa ⟨SECURITY_ASSOCIATION_V1, AUTH_RSA⟩]⟩ (by decide) (Or.inr rfl)).1,
    (terminal_states_outside_aggressive (sample_lib [sample_ca 1] false) (sample_sa IKEV1 none)
      (sample_sa IKEV1 none) false false true CP_REQ_SENT
      ⟨ID_PROT, 0, [.sa ⟨SECURITY_ASSOCIATION_V1, AUTH_RSA⟩]⟩ (by decide)
      (Or.inr rfl)).2.1 (by decide)⟩

/-! ## Legacy builder, one request payload per CA: C9 -/

/-- C9 fails on the code. With no peer config and a store that enumerates an
eligible CA followed by a trusted certificate without the CA flag, the legacy
builder hands the request payload to the message twice (once per iteration
after the payload exists) although one eligible CA was met. With a peer config
whose first authentication config names a certificate without the CA flag and
an empty store, it attaches once (a pointer that is not a payload) although no
eligible CA was met. -/
theorem build_certreqs_v1_attachments_differ_from_eligible_cas :
    ((build_certreqs_v1 (sample_lib [sample_ca 1, sample_ee 2] false)
        (ike_cert_pre_create (sample_sa IKEV1 none) false) ⟨ID_PROT, 0, []⟩).2.payloads =
      [payload_t.certreq
          { type := CERTIFICATE_REQUEST_V1, cert_type := CERT_X509, keyids := [],
            dn := some [48, 1] },
        payload_t.certreq
          { type := CERTIFICATE_REQUEST_V1, cert_type := CERT_X509, keyids := [],
            dn := some [48, 1] }] ∧
      ([sample_ca 1, sample_ee 2].filter has_ca_key).length = 1) ∧
    ((build_certreqs_v1 (sample_lib [] false)
        (ike_cert_pre_create
          (sample_sa IKEV1 (some ⟨[], [[(AUTH_RULE_CA_CERT, .cert (sample_ee 2))]]⟩)) false)
        ⟨ID_PROT, 0, []⟩).2.payloads = [payload_t.not_a_payload] ∧
      ((ca_certs [(AUTH_RULE_CA_CERT, .cert (sample_ee 2))]).filter has_ca_key).length = 0) := by
  refine ⟨⟨?_, ?_⟩, ?_, ?_⟩ <;> decide

/-! ## Sending of certificate requests disabled: C10 -/

/-- C10: when the IKE configuration of the session disables sending certificate
requests, both builders return the task record and the outgoing message as
they were: no payload and no notification is added and `do_http_lookup` keeps
its value, whatever the peer config and the credential manager hold. -/
theorem build_certreqs_disabled (lib : library_t) (this : private_ike_cert_pre_t)
    (message : message_t) (h : this.ike_sa.ike_cfg.send_certreq = false) :
    build_certreqs lib this message = (this, message) ∧
    build_certreqs_v1 lib this message = (this, message) ∧
    (build_certreqs lib this message).1.do_http_lookup = this.do_http_lookup ∧
    (build_certreqs_v1 lib this message).1.do_http_lookup = this.do_http_lookup := by
  have h1 : build_certreqs lib this message = (this, message) := by
    simp [build_certreqs, h]
  have h2 : build_certreqs_v1 lib this message = (this, message) := by
    simp [build_certreqs_v1, h]
  rw [h1, h2]
  exact ⟨rfl, rfl, rfl, rfl⟩

/-- C10 at a concrete session: requests disabled, a peer config naming a CA,
a store trusting two CAs and hash-and-url advertising enabled. -/
theorem build_certreqs_disabled_witness :
    build_certreqs (sample_lib [sample_ca 1, sample_ca 2] true)
        (ike_cert_pre_create
          { sample_sa IKEV2 (some ⟨[], [[(AUTH_RULE_CA_CERT, .cert (sample_ca 1))]]⟩) with
            ike_cfg := { send_certreq := false } } true)
        ⟨IKE_AUTH, 1, [.unknown ID_INITIATOR]⟩ =
      (ike_cert_pre_create
          { sample_sa IKEV2 (some ⟨[], [[(AUTH_RULE_CA_CERT, .cert (sample_ca 1))]]⟩) with
            ike_cfg := { send_certreq := false } } true,
        ⟨IKE_AUTH, 1, [.unknown ID_INITIATOR]⟩) :=
  (build_certreqs_disabled (sample_lib [sample_ca 1, sample_ca 2] true)
    (ike_cert_pre_create
      { sample_sa IKEV2 (some ⟨[], [[(AUTH_RULE_CA_CERT, .cert (sample_ca 1))]]⟩) with
        ike_cfg := { send_certreq := false } } true)
    ⟨IKE_AUTH, 1, [.unknown ID_INITIATOR]⟩ rfl).1

/-! ## The hash-and-url acceptance flag: C11 -/

theorem build_certreqs_cases (lib : library_t) (this : private_ike_cert_pre_t)
    (message : message_t) :
    build_certreqs lib this message = (this, message) ∨
    (∃ r : certreq_payload_t,
      (lib.settings.get_bool "charon.hash_and_url" false = false ∧
        build_certreqs lib this message =
          (this, { message with payloads := message.payloads ++ [payload_t.certreq r] })) ∨
      (lib.settings.get_bool "charon.hash_and_url" false = true ∧
        build_certreqs lib this message =
          ({ this with do_http_lookup := true },
            { message with payloads := message.payloads ++
                [payload_t.certreq r,
                  payload_t.notify
                    { notify_type := HTTP_CERT_LOOKUP_SUPPORTED, data := none }] }))) := by
  unfold build_certreqs
  split
  · left; rfl
  · simp only []
    split
    · rename_i r _
      right
      refine ⟨r, ?_⟩
      cases hs : lib.settings.get_bool "charon.hash_and_url" false
      · left; simp [message_t.add_payload]
      · right; simp [message_t.add_payload, message_t.add_notify]
    · left; rfl

theorem build_certreqs_frame (lib : library_t) (this : private_ike_cert_pre_t)
    (message : message_t) :
    (build_certreqs lib this message).1 =
      { this with do_http_lookup := (build_certreqs lib this message).1.do_http_lookup } := by
  rcases build_certreqs_cases lib this message with h | ⟨r, ⟨_, h⟩ | ⟨_, h⟩⟩ <;> rw [h]

theorem process_certreqs_flag (lib : library_t) (this : private_ike_cert_pre_t)
    (message : message_t) :
    (process_certreqs lib this message).do_http_lookup = this.do_http_lookup := by
  rw [process_certreqs_frame]

theorem check_auth_method_flag (this : private_ike_cert_pre_t) (message : message_t) :
    (check_auth_method this message).2.do_http_lookup = this.do_http_lookup := by
  rw [check_auth_method_spec]
  split
  · split <;> rfl
  · rfl

theorem task_process_flag (lib : library_t) (this : private_ike_cert_pre_t)
    (message : message_t) :
    (task_process lib this message).2.do_http_lookup = this.do_http_lookup := by
  unfold task_process
  split
  · unfold process_i
    split <;> split <;> simp [process_certs, process_certreqs_flag]
  · unfold process_r
    split <;> simp [process_certs, process_certreqs_flag]
  · rfl
  · unfold process_r_v1
    split
    · split
      · exact check_auth_method_flag this message
      · simp [process_certreqs_flag]
      · simp [process_certs, process_certreqs_flag]
      · rfl
    · simp only []
      split
      · simp [process_certs, process_certreqs_flag, check_auth_method_flag]
      · exact check_auth_method_flag this message
    · rfl

theorem foldl_add_payload :
    ∀ (l : List payload_t) (message : message_t),
      l.foldl message_t.add_payload message =
        { message with payloads := message.payloads ++ l } := by
  intro l
  induction l with
  | nil => intro message; simp
  | cons p l ih =>
    intro message
    rw [List.foldl_cons, ih]
    simp [message_t.add_payload]

theorem added_payloads_append (message : message_t) (l : List payload_t) :
    added_payloads message { message with payloads := message.payloads ++ l } = l := by
  simp [added_payloads]

theorem added_payloads_self (message : message_t) : added_payloads message message = [] := by
  simp [added_payloads]

theorem deref_not_notify (req : Option certreq_payload_t) (ptr : req_pointer_t) :
    is_http_cert_lookup_notify (req_pointer_t.deref req ptr) = false := by
  cases ptr <;> cases req <;> rfl

theorem build_certreqs_v1_added (lib : library_t) (this : private_ike_cert_pre_t)
    (message : message_t) :
    ∃ l : List payload_t,
      build_certreqs_v1 lib this message =
        (this, { message with payloads := message.payloads ++ l }) ∧
      ∀ p ∈ l, is_http_cert_lookup_notify p = false := by
  unfold build_certreqs_v1
  split
  · exact ⟨[], by simp, by simp⟩
  · refine ⟨(build_certreqs_v1_locals lib this).added.map
      (req_pointer_t.deref (build_certreqs_v1_locals lib this).req), ?_, ?_⟩
    · simp only [foldl_add_payload]
    · intro p hp
      obtain ⟨ptr, _, rfl⟩ := List.mem_map.mp hp
      exact deref_not_notify _ ptr

theorem build_r_v1_added (lib : library_t) (this : private_ike_cert_pre_t)
    (message : message_t) :
    ∃ l : List payload_t,
      (build_r_v1 lib this message).2 =
        (this, { message with payloads := message.payloads ++ l }) ∧
      ∀ p ∈ l, is_http_cert_lookup_notify p = false := by
  have hv := build_certreqs_v1_added lib this message
  have hself : ∃ l : List payload_t,
      (this, message) = (this, { message with payloads := message.payloads ++ l }) ∧
      ∀ p ∈ l, is_http_cert_lookup_notify p = false := ⟨[], by simp, by simp⟩
  have h : ∀ r : private_ike_cert_pre_t × message_t,
      (∃ l : List payload_t, r = (this, { message with payloads := message.payloads ++ l }) ∧
        ∀ p ∈ l, is_http_cert_lookup_notify p = false) →
      ∃ l : List payload_t,
        (if r.1.final then (SUCCESS, r) else (NEED_MORE, r)).2 =
          (this, { message with payloads := message.payloads ++ l }) ∧
        ∀ p ∈ l, is_http_cert_lookup_notify p = false := by
    intro r hr
    split <;> exact hr
  unfold build_r_v1
  apply h
  split
  · split
    · exact hv
    · exact hself
  · split
    · exact hv
    · exact hself
  · exact hself

theorem build_certreqs_flag_spec (lib : library_t) (this : private_ike_cert_pre_t)
    (message : message_t) :
    (build_certreqs lib this message).2.payloads =
      message.payloads ++ added_payloads message (build_certreqs lib this message).2 ∧
    ((added_payloads message (build_certreqs lib this message).2).any
        is_http_cert_lookup_notify = true ↔
      ((added_payloads message (build_certreqs lib this message).2).any is_certreq = true ∧
        lib.settings.get_bool "charon.hash_and_url" false = true)) ∧
    ((build_certreqs lib this message).1.do_http_lookup = true ↔
      (this.do_http_lookup = true ∨
        (added_payloads message (build_certreqs lib this message).2).any
          is_http_cert_lookup_notify = true)) := by
  rcases build_certreqs_cases lib this message with h | ⟨r, ⟨hs, h⟩ | ⟨hs, h⟩⟩
  · rw [h]
    simp [added_payloads_self]
  · rw [h]
    simp [added_payloads_append, is_http_cert_lookup_notify, is_certreq, hs]
  · rw [h]
    simp [added_payloads_append, is_http_cert_lookup_notify, is_certreq, hs]

theorem unchanged_flag_spec (this : private_ike_cert_pre_t) (message : message_t) :
    (this.do_http_lookup = true ↔
      (this.do_http_lookup = true ∨
        (added_payloads message message).any is_http_cert_lookup_notify = true)) := by
  simp [added_payloads_self]

theorem task_build_flag (lib : library_t) (this : private_ike_cert_pre_t)
    (message : message_t) :
    ((task_build lib this message).2.1.do_http_lookup = true ↔
      (this.do_http_lookup = true ∨
        (added_payloads message (task_build lib this message).2.2).any
          is_http_cert_lookup_notify = true)) := by
  unfold task_build
  split
  · unfold build_i
    split
    · exact (build_certreqs_flag_spec lib this message).2.2
    · exact unchanged_flag_spec this message
  · have h : ∀ r : private_ike_cert_pre_t × message_t,
        (r.1.do_http_lookup = true ↔ (this.do_http_lookup = true ∨
          (added_payloads message r.2).any is_http_cert_lookup_notify = true)) →
        ((if r.1.final then (SUCCESS, r) else (NEED_MORE, r)).2.1.do_http_lookup = true ↔
          (this.do_http_lookup = true ∨
            (added_payloads message
              (if r.1.final then (SUCCESS, r) else (NEED_MORE, r)).2.2).any
                is_http_cert_lookup_notify = true)) := by
      intro r hr
      split <;> exact hr
    unfold build_r
    apply h
    split
    · exact (build_certreqs_flag_spec lib this message).2.2
    · exact unchanged_flag_spec this message
  · exact unchanged_flag_spec this message
  · obtain ⟨l, hl, hn⟩ := build_r_v1_added lib this message
    rw [hl, added_payloads_append]
    have : l.any is_http_cert_lookup_notify = false := by
      rw [List.any_eq_false]
      intro p hp
      simp [hn p hp]
    simp [this]

/-- C11: `do_http_lookup` is false in the task built by `ike_cert_pre_create`.
For every call of `build_certreqs`, the payloads it appends contain the
HTTP_CERT_LOOKUP_SUPPORTED notification if and only if they contain a
certificate-request payload and the setting `charon.hash_and_url` is enabled,
and `do_http_lookup` is true after the call exactly when it was true before or
that notification was appended. No operation resets the flag: a process call
leaves it as it is, and after a build call through any bound method it is true
exactly when it was true before or the call appended the notification. -/
theorem do_http_lookup_set_only_with_advertising (lib : library_t) (ike_sa : ike_sa_t)
    (initiator : Bool) (this : private_ike_cert_pre_t) (message : message_t) :
    (ike_cert_pre_create ike_sa initiator).do_http_lookup = false ∧
    (build_certreqs lib this message).2.payloads =
      message.payloads ++ added_payloads message (build_certreqs lib this message).2 ∧
    ((added_payloads message (build_certreqs lib this message).2).any
        is_http_cert_lookup_notify = true ↔
      ((added_payloads message (build_certreqs lib this message).2).any is_certreq = true ∧
        lib.settings.get_bool "charon.hash_and_url" false = true)) ∧
    ((build_certreqs lib this message).1.do_http_lookup = true ↔
      (this.do_http_lookup = true ∨
        (added_payloads message (build_certreqs lib this message).2).any
          is_http_cert_lookup_notify = true)) ∧
    (task_process lib this message).2.do_http_lookup = this.do_http_lookup ∧
    ((task_build lib this message).2.1.do_http_lookup = true ↔
      (this.do_http_lookup = true ∨
        (added_payloads message (task_build lib this message).2.2).any
          is_http_cert_lookup_notify = true)) := by
  refine ⟨?_, (build_certreqs_flag_spec lib this message).1,
    (build_certreqs_flag_spec lib this message).2.1,
    (build_certreqs_flag_spec lib this message).2.2,
    task_process_flag lib this message, task_build_flag lib this message⟩
  unfold ike_cert_pre_create
  split <;> rfl

/-! ## Source of the request of the newer generation: C12, C14 -/

theorem add_certreqs_foldl_flatMap (this : private_ike_cert_pre_t) :
    ∀ (auths : List auth_cfg_t) (req : Option certreq_payload_t),
      auths.foldl (add_certreqs this) req =
        (auths.flatMap ca_certs).foldl (add_certreq this) req := by
  intro auths
  induction auths with
  | nil => intro req; rfl
  | cons a auths ih =>
    intro req
    rw [List.foldl_cons, ih, add_certreqs_eq_foldl, List.flatMap_cons, List.foldl_append]

theorem peer_loop_eq (this : private_ike_cert_pre_t) :
    (match this.ike_sa.peer_cfg with
      | some peer_cfg =>
        (peer_cfg.create_auth_cfg_enumerator false).foldl (add_certreqs this) none
      | none => none) = (peer_ca_certs this).foldl (add_certreq this) none := by
  unfold peer_ca_certs
  cases this.ike_sa.peer_cfg with
  | none => rfl
  | some peer_cfg => exact add_certreqs_foldl_flatMap this _ none

theorem build_certreqs_newer_spec (lib : library_t) (this : private_ike_cert_pre_t)
    (message : message_t) (hnew : this.cert_req_payload_type = CERTIFICATE_REQUEST)
    (hsend : this.ike_sa.ike_cfg.send_certreq = true) :
    build_certreqs lib this message =
      if (certreq_source lib this).any has_ca_key then
        attach_certreq lib this message
          { type := CERTIFICATE_REQUEST, cert_type := CERT_X509,
            keyids := (certreq_source lib this).filterMap ca_keyid, dn := none }
      else (this, message) := by
  have hp := peer_loop_eq this
  unfold build_certreqs
  simp only [hsend, Bool.not_true, Bool.false_eq_true, if_false]
  rw [hp, add_certreq_foldl_newer this hnew]
  unfold certreq_source
  cases hs : lib.settings.get_bool "charon.hash_and_url" false <;>
    cases hpeer : (peer_ca_certs this).any has_ca_key
  · simp only [Bool.false_eq_true, if_false]
    rw [add_certreq_foldl_newer this hnew]
    unfold store_certs
    cases hstore : (lib.credmgr.create_cert_enumerator CERT_ANY KEY_ANY none true).any has_ca_key
    · simp
    · simp [attach_certreq, certreq_payload_create_type, message_t.add_payload, hs]
  · have hex : ∃ x ∈ peer_ca_certs this, has_ca_key x = true := by simpa using hpeer
    simp [attach_certreq, certreq_payload_create_type, message_t.add_payload, hs, hex]
  · simp only [Bool.false_eq_true, if_false]
    rw [add_certreq_foldl_newer this hnew]
    unfold store_certs
    cases hstore : (lib.credmgr.create_cert_enumerator CERT_ANY KEY_ANY none true).any has_ca_key
    · simp
    · simp [attach_certreq, certreq_payload_create_type, message_t.add_payload,
        message_t.add_notify, hs]
  · have hex : ∃ x ∈ peer_ca_certs this, has_ca_key x = true := by simpa using hpeer
    simp [attach_certreq, certreq_payload_create_type, message_t.add_payload,
      message_t.add_notify, hs, hex]

theorem ca_keyid_iff_eligible (cert : certificate_t) (fp : chunk_t) :
    ca_keyid cert = some fp ↔ eligible_ca cert fp := by
  constructor
  · intro h
    unfold ca_keyid at h
    split at h
    · rename_i hk
      simp only [has_ca_key, Bool.and_eq_true, decide_eq_true_eq] at hk
      obtain ⟨⟨h1, h2⟩, h3⟩ := hk
      cases hpub : cert.public_key with
      | none => simp [hpub] at h
      | some pub =>
        simp only [hpub, Option.bind_some] at h
        exact ⟨h1, h2, pub, hpub, h⟩
    · simp at h
  · intro h
    exact (eligible_ca_keyid cert fp h).2

/-- C12 fails as stated. The peer config names one CA that carries the CA flag
and a public key but has no derivable fingerprint, so it yields no key-id; the
trusted store enumerates two eligible CAs with the fingerprints `[3]` and
`[5]`. `build_certreqs` attaches a request payload with an empty key-id list,
not the fingerprints of the store, and the result is the same over an empty
store: the store is not consulted. -/
theorem store_fallback_skipped_without_peer_keyid :
    (peer_ca_certs
        (ike_cert_pre_create
          (sample_sa IKEV2
            (some ⟨[], [[(AUTH_RULE_CA_CERT, .cert (sample_ca_without_keyid 4))]]⟩))
          true)).filterMap ca_keyid = [] ∧
    (store_certs (sample_lib [sample_ca 3, sample_ca 5] false)).filterMap ca_keyid =
      [some [3], some [5]] ∧
    (build_certreqs (sample_lib [sample_ca 3, sample_ca 5] false)
        (ike_cert_pre_create
          (sample_sa IKEV2
            (some ⟨[], [[(AUTH_RULE_CA_CERT, .cert (sample_ca_without_keyid 4))]]⟩)) true)
        ⟨IKE_AUTH, 1, []⟩).2.payloads =
      [payload_t.certreq
        { type := CERTIFICATE_REQUEST, cert_type := CERT_X509, keyids := [], dn := none }] ∧
    (build_certreqs (sample_lib [] false)
        (ike_cert_pre_create
          (sample_sa IKEV2
            (some ⟨[], [[(AUTH_RULE_CA_CERT, .cert (sample_ca_without_keyid 4))]]⟩)) true)
        ⟨IKE_AUTH, 1, []⟩).2.payloads =
      [payload_t.certreq
        { type := CERTIFICATE_REQUEST, cert_type := CERT_X509, keyids := [], dn := none }] := by
  refine ⟨?_, ?_, ?_, ?_⟩ <;> decide

/-- C12 as amended: the newer-generation builder runs with sending of
certificate requests enabled. If there is no peer config, or no CA rule of its
authentication configs names an X.509 certificate with the CA flag and a public
key (so `req` is still NULL after the peer loop), a request payload is attached
exactly when the trusted store enumerates such a certificate, and its key-id
list is exactly the fingerprints of the eligible certificates of the store
(X.509, CA flag set, public key present, fingerprint derivable), in enumeration
order. If the peer config does name such a certificate, whether or not a
fingerprint can be derived from it, the result is the same for every
credential manager: the store is not consulted. -/
theorem build_certreqs_store_fallback (lib : library_t) (this : private_ike_cert_pre_t)
    (message : message_t) (hnew : this.cert_req_payload_type = CERTIFICATE_REQUEST)
    (hsend : this.ike_sa.ike_cfg.send_certreq = true) :
    ((peer_ca_certs this).any has_ca_key = false →
      (build_certreqs lib this message).2.payloads =
        message.payloads ++
          (if (store_certs lib).any has_ca_key then
            payload_t.certreq
              { type := CERTIFICATE_REQUEST, cert_type := CERT_X509,
                keyids := (store_certs lib).filterMap ca_keyid, dn := none } ::
            (if lib.settings.get_bool "charon.hash_and_url" false then
              [payload_t.notify { notify_type := HTTP_CERT_LOOKUP_SUPPORTED, data := none }]
            else [])
          else [])) ∧
    (this.ike_sa.peer_cfg = none → (peer_ca_certs this).any has_ca_key = false) ∧
    (∀ cert fp, ca_keyid cert = some fp ↔ eligible_ca cert fp) ∧
    ((peer_ca_certs this).any has_ca_key = true →
      ∀ credmgr : credential_manager_t,
        build_certreqs { lib with credmgr := credmgr } this message =
          build_certreqs lib this message) := by
  refine ⟨?_, ?_, ca_keyid_iff_eligible, ?_⟩
  · intro hpeer
    rw [build_certreqs_newer_spec lib this message hnew hsend]
    simp only [certreq_source, hpeer, Bool.false_eq_true, if_false]
    cases hstore : (store_certs lib).any has_ca_key
    · simp
    · cases hs : lib.settings.get_bool "charon.hash_and_url" false <;>
        simp [attach_certreq, hs]
  · intro hnone
    simp [peer_ca_certs, hnone]
  · intro hpeer credmgr
    rw [build_certreqs_newer_spec lib this message hnew hsend,
      build_certreqs_newer_spec _ this message hnew hsend]
    simp only [certreq_source, hpeer, if_true, attach_certreq]

/-- C12 as amended, at a concrete session: no peer config, a store enumerating
an end-entity certificate, CA 1, a CA without fingerprint and CA 2. -/
theorem build_certreqs_store_fallback_witness :
    (build_certreqs
        (sample_lib [sample_ee 5, sample_ca 1, sample_ca_without_keyid 4, sample_ca 2] false)
        (ike_cert_pre_create (sample_sa IKEV2 none) true) ⟨IKE_AUTH, 1, []⟩).2.payloads =
      [payload_t.certreq
        { type := CERTIFICATE_REQUEST, cert_type := CERT_X509,
          keyids := [some [1], some [2]], dn := none }] :=
  (build_certreqs_store_fallback
    (sample_lib [sample_ee 5, sample_ca 1, sample_ca_without_keyid 4, sample_ca 2] false)
    (ike_cert_pre_create (sample_sa IKEV2 none) true) ⟨IKE_AUTH, 1, []⟩ rfl rfl).1 rfl

theorem process_certs_payload_entry (lib : library_t) (d : Bool) (auth : auth_cfg_t)
    (first : Bool) (p : payload_t) :
    process_certs_payload lib d (auth, first) p =
      (auth ++ (payload_entry lib d first p).toList,
        first && (payload_item lib d p).isNone) := by
  cases p with
  | cert cp =>
    by_cases ht : cp.type = CERTIFICATE ∨ cp.type = CERTIFICATE_V1
    · simp only [process_certs_payload, payload_t.get_type, ht, if_true, process_cert_payload,
        payload_entry, payload_item, crl_entry, true_and]
      cases henc : cp.get_cert_encoding <;> cases d <;>
        simp [process_cert_x509, henc, auth_cfg_add] <;>
        (try (cases hc : try_get_cert lib cp <;> cases first <;>
          simp [hc, item_entry, henc])) <;>
        (try (cases hu : cp.get_url <;> simp [hu, item_entry])) <;>
        (try (cases hg : cp.get_cert <;> simp [hg]))
    · simp [process_certs_payload, payload_t.get_type, ht, payload_entry, payload_item,
        crl_entry]
  | sa q =>
    simp only [process_certs_payload, payload_entry, payload_item, crl_entry]
    split <;> simp
  | certreq q =>
    simp only [process_certs_payload, payload_entry, payload_item, crl_entry]
    split <;> simp
  | notify q =>
    simp only [process_certs_payload, payload_entry, payload_item, crl_entry]
    split <;> simp
  | unknown q =>
    simp only [process_certs_payload, payload_entry, payload_item, crl_entry]
    split <;> simp
  | not_a_payload =>
    simp only [process_certs_payload, payload_entry, payload_item, crl_entry]
    split <;> simp

theorem process_certs_loop_entries (lib : library_t) (d : Bool) :
    ∀ (ps : List payload_t) (auth : auth_cfg_t) (first : Bool),
      ps.foldl (process_certs_payload lib d) (auth, first) =
        (auth ++ recorded_entries lib d first ps,
          first && ps.all (fun p => (payload_item lib d p).isNone)) := by
  intro ps
  induction ps with
  | nil => intro auth first; simp [recorded_entries]
  | cons p ps ih =>
    intro auth first
    rw [List.foldl_cons, process_certs_payload_entry, ih]
    simp [recorded_entries, Bool.and_assoc]

theorem recorded_entries_taken (lib : library_t) (d : Bool) :
    ∀ ps : List payload_t,
      recorded_entries lib d false ps = ps.filterMap (payload_entry lib d false) := by
  intro ps
  induction ps with
  | nil => rfl
  | cons p ps ih =>
    simp only [recorded_entries, Bool.false_and, ih, List.filterMap_cons]
    cases payload_entry lib d false p <;> simp

theorem payload_entry_no_item (lib : library_t) (d first : Bool) (p : payload_t)
    (h : payload_item lib d p = none) : payload_entry lib d first p = crl_entry p := by
  simp [payload_entry, h]

theorem recorded_entries_no_item (lib : library_t) (d first : Bool) :
    ∀ ps : List payload_t, (∀ q ∈ ps, payload_item lib d q = none) →
      recorded_entries lib d first ps = ps.filterMap crl_entry ∧
      ps.all (fun p => (payload_item lib d p).isNone) = true := by
  intro ps
  induction ps with
  | nil => intro _; exact ⟨rfl, rfl⟩
  | cons p ps ih =>
    intro h
    have hp := h p (List.mem_cons_self _ _)
    obtain ⟨ih1, ih2⟩ := ih (fun q hq => h q (List.mem_cons_of_mem _ hq))
    constructor
    · simp only [recorded_entries, hp, Option.isNone_none, Bool.and_true, ih1,
        List.filterMap_cons, payload_entry_no_item lib d first p hp]
      cases crl_entry p <;> simp
    · simp [hp, ih2]

theorem recorded_entries_append (lib : library_t) (d : Bool) :
    ∀ (pre post : List payload_t) (first : Bool),
      recorded_entries lib d first (pre ++ post) =
        recorded_entries lib d first pre ++
          recorded_entries lib d
            (first && pre.all (fun p => (payload_item lib d p).isNone)) post := by
  intro pre
  induction pre with
  | nil => intro post first; simp [recorded_entries]
  | cons p pre ih =>
    intro post first
    simp [recorded_entries, ih, Bool.and_assoc]

theorem crl_entry_kind (p : payload_t) (e : auth_rule_t × auth_value_t)
    (h : crl_entry p = some e) : is_end_entity_kind e = false := by
  cases p with
  | cert cp =>
    simp only [crl_entry] at h
    split at h
    · cases hg : cp.get_cert with
      | none => simp [hg] at h
      | some c =>
        simp only [hg, Option.map_some', Option.some.injEq] at h
        subst h
        rfl
    · cases h
  | sa q => cases h
  | certreq q => cases h
  | notify q => cases h
  | unknown q => cases h
  | not_a_payload => cases h

theorem payload_entry_taken_kind (lib : library_t) (d : Bool) (p : payload_t)
    (e : auth_rule_t × auth_value_t) (h : payload_entry lib d false p = some e) :
    is_end_entity_kind e = false := by
  unfold payload_entry at h
  split at h
  · rename_i item _
    simp only [Option.some.injEq] at h
    subst h
    cases item <;> rfl
  · exact crl_entry_kind p e h

theorem item_entry_end_entity (item : cert_item) :
    is_end_entity_kind (item_entry true item) = true := by
  cases item <;> rfl

theorem recorded_entries_end_entity (lib : library_t) (d : Bool) :
    ∀ (ps : List payload_t) (first : Bool),
      (recorded_entries lib d first ps).any is_end_entity_kind =
        (first && !ps.all (fun p => (payload_item lib d p).isNone)) := by
  intro ps
  induction ps with
  | nil => intro first; simp [recorded_entries]
  | cons p ps ih =>
    intro first
    simp only [recorded_entries, List.any_append, ih, List.all_cons]
    cases hi : payload_item lib d p with
    | none =>
      have hk : (payload_entry lib d first p).toList.any is_end_entity_kind = false := by
        rw [payload_entry_no_item lib d first p hi]
        cases hc : crl_entry p with
        | none => rfl
        | some e => simp [crl_entry_kind p e hc]
      simp [hk]
    | some item =>
      cases first
      · simp
        intro a b hab
        exact payload_entry_taken_kind lib d p (a, b) hab
      · simp [payload_entry, hi, item_entry_end_entity]

/-- C13 fails as stated: with `do_http_lookup` false, a message whose first
certificate payload is hash-and-url encoded and whose second one carries a
certificate records that certificate as end-entity; and after a certificate
payload carrying a revocation list, the certificate of the next payload is
recorded as end-entity. The end-entity entry then originates from the second
certificate payload of the message. -/
theorem end_entity_from_later_payload :
    (process_certs (sample_lib [] false) (ike_cert_pre_create (sample_sa IKEV2 none) true)
        ⟨IKE_AUTH, 1, [.cert (sample_hash_url_payload [7] (some "http://a/7")),
          .cert (sample_cert_payload (sample_ee 3))]⟩).ike_sa.other_auth =
      [(AUTH_HELPER_SUBJECT_CERT, .cert (sample_ee 3))] ∧
    (process_certs (sample_lib [] false) (ike_cert_pre_create (sample_sa IKEV2 none) true)
        ⟨IKE_AUTH, 1, [.cert { sample_cert_payload (sample_ca 9) with get_cert_encoding := ENC_CRL },
          .cert (sample_cert_payload (sample_ee 3))]⟩).ike_sa.other_auth =
      [(AUTH_HELPER_REVOCATION_CERT, .cert (sample_ca 9)),
        (AUTH_HELPER_SUBJECT_CERT, .cert (sample_ee 3))] := by
  constructor <;> decide

/-- C13 as amended: the first payload of the message that yields a certificate
or a URL (a signature payload, or an accepted hash-and-url payload) is the one
recorded under the end-entity kind, and every certificate or URL recorded from
a later signature or hash-and-url payload is recorded under the intermediate
kind. Payloads before it record revocation lists at most and do not use up the
end-entity slot; when no payload yields a certificate or URL, no end-entity
entry is recorded. -/
theorem end_entity_is_first_recorded (lib : library_t) (this : private_ike_cert_pre_t)
    (exchange : exchange_type_t) (id : Nat) (pre post : List payload_t) (p : payload_t)
    (item : cert_item)
    (hpre : ∀ q ∈ pre, payload_item lib this.do_http_lookup q = none)
    (hp : payload_item lib this.do_http_lookup p = some item) :
    (process_certs lib this ⟨exchange, id, pre ++ p :: post⟩).ike_sa.other_auth =
      this.ike_sa.other_auth ++ pre.filterMap crl_entry ++
        item_entry true item :: post.filterMap (payload_entry lib this.do_http_lookup false) ∧
    is_end_entity_kind (item_entry true item) = true ∧
    (∀ e ∈ pre.filterMap crl_entry, is_end_entity_kind e = false) ∧
    (∀ e ∈ post.filterMap (payload_entry lib this.do_http_lookup false),
      is_end_entity_kind e = false) ∧
    (∀ message : message_t,
      (∀ q ∈ message.payloads, payload_item lib this.do_http_lookup q = none) →
      (process_certs lib this message).ike_sa.other_auth =
        this.ike_sa.other_auth ++ message.payloads.filterMap crl_entry ∧
      ∀ e ∈ message.payloads.filterMap crl_entry, is_end_entity_kind e = false) := by
  have hcrl : ∀ l : List payload_t, ∀ e ∈ l.filterMap crl_entry,
      is_end_entity_kind e = false := by
    intro l e he
    obtain ⟨q, _, hq⟩ := List.mem_filterMap.mp he
    exact crl_entry_kind q e hq
  refine ⟨?_, item_entry_end_entity item, hcrl pre, ?_, ?_⟩
  · obtain ⟨h1, h2⟩ := recorded_entries_no_item lib this.do_http_lookup true pre hpre
    simp only [process_certs, process_certs_loop_entries, recorded_entries_append, h1, h2,
      Bool.and_self, recorded_entries, hp, payload_entry, Option.toList, Option.isNone_some,
      Bool.and_false, recorded_entries_taken]
    simp
  · intro e he
    obtain ⟨q, _, hq⟩ := List.mem_filterMap.mp he
    exact payload_entry_taken_kind lib this.do_http_lookup q e hq
  · intro message hall
    obtain ⟨h1, _⟩ := recorded_entries_no_item lib this.do_http_lookup true message.payloads hall
    exact ⟨by simp only [process_certs, process_certs_loop_entries, h1], hcrl message.payloads⟩

/-- C13 as amended, at a concrete message: a refused hash-and-url payload, a
revocation list, an end-entity certificate and an issuer certificate. -/
theorem end_entity_is_first_recorded_witness :
    (process_certs (sample_lib [] false) (ike_cert_pre_create (sample_sa IKEV2 none) true)
        ⟨IKE_AUTH, 1, [.cert (sample_hash_url_payload [7] (some "http://a/7")),
          .cert { sample_cert_payload (sample_ca 9) with get_cert_encoding := ENC_CRL },
          .cert (sample_cert_payload (sample_ee 3)),
          .cert (sample_cert_payload (sample_ca 2))]⟩).ike_sa.other_auth =
      [(AUTH_HELPER_REVOCATION_CERT, .cert (sample_ca 9)),
        (AUTH_HELPER_SUBJECT_CERT, .cert (sample_ee 3)),
        (AUTH_HELPER_IM_CERT, .cert (sample_ca 2))] :=
  (end_entity_is_first_recorded (sample_lib [] false)
    (ike_cert_pre_create (sample_sa IKEV2 none) true) IKE_AUTH 1
    [.cert (sample_hash_url_payload [7] (some "http://a/7")),
      .cert { sample_cert_payload (sample_ca 9) with get_cert_encoding := ENC_CRL }]
    [.cert (sample_cert_payload (sample_ca 2))]
    (.cert (sample_cert_payload (sample_ee 3))) (.cert (sample_ee 3))
    (by decide) rfl).1

theorem try_get_cert_hash_unknown (lib : library_t) (cp : cert_payload_t)
    (henc : cp.get_cert_encoding = ENC_X509_HASH_AND_URL)
    (hnone : cp.get_hash = none ∨ ∃ hash, cp.get_hash = some hash ∧
      lib.credmgr.get_cert CERT_X509 KEY_ANY { type := ID_KEY_ID, encoded := some hash }
        false = none) :
    try_get_cert lib cp = none := by
  rcases hnone with h | ⟨hash, h, hl⟩
  · simp [try_get_cert, henc, h]
  · simp [try_get_cert, henc, h, identification_create_from_encoding, hl]

theorem process_certs_other_auth (lib : library_t) (this : private_ike_cert_pre_t)
    (message : message_t) :
    (process_certs lib this message).ike_sa.other_auth =
      this.ike_sa.other_auth ++
        recorded_entries lib this.do_http_lookup true message.payloads := by
  simp only [process_certs, process_certs_loop_entries]

theorem process_certs_congr (lib : library_t) (this : private_ike_cert_pre_t)
    (m1 m2 : message_t)
    (h : recorded_entries lib this.do_http_lookup true m1.payloads =
      recorded_entries lib this.do_http_lookup true m2.payloads) :
    process_certs lib this m1 = process_certs lib this m2 := by
  simp only [process_certs, process_certs_loop_entries, h]

/-- C18: a task with `do_http_lookup` true processes a hash-and-url certificate
payload for which the classifier yields nothing (hash absent, or not known to
the credential manager). If the payload carries a URL, `process_certs` appends
exactly one entry holding that URL: under AUTH_HELPER_SUBJECT_HASH_URL when the
payloads before it recorded no end-entity entry in this call, under
AUTH_HELPER_IM_HASH_URL otherwise. If the URL is absent, nothing is appended
and the payloads after it are processed as if it were not there: the
end-entity slot is not used up. -/
theorem hash_and_url_deferred (lib : library_t) (this : private_ike_cert_pre_t)
    (exchange : exchange_type_t) (id : Nat) (pre post : List payload_t) (cp : cert_payload_t)
    (hflag : this.do_http_lookup = true)
    (htype : cp.type = CERTIFICATE ∨ cp.type = CERTIFICATE_V1)
    (henc : cp.get_cert_encoding = ENC_X509_HASH_AND_URL)
    (hnone : cp.get_hash = none ∨ ∃ hash, cp.get_hash = some hash ∧
      lib.credmgr.get_cert CERT_X509 KEY_ANY { type := ID_KEY_ID, encoded := some hash }
        false = none) :
    (∀ url, cp.get_url = some url →
      (process_certs lib this ⟨exchange, id, pre ++ [.cert cp]⟩).ike_sa.other_auth =
        (process_certs lib this ⟨exchange, id, pre⟩).ike_sa.other_auth ++
          [(if ((process_certs lib this ⟨exchange, id, pre⟩).ike_sa.other_auth.drop
                this.ike_sa.other_auth.length).any is_end_entity_kind
              then AUTH_HELPER_IM_HASH_URL else AUTH_HELPER_SUBJECT_HASH_URL,
            auth_value_t.str url)]) ∧
    (cp.get_url = none →
      process_certs lib this ⟨exchange, id, pre ++ [.cert cp]⟩ =
        process_certs lib this ⟨exchange, id, pre⟩ ∧
      process_certs lib this ⟨exchange, id, pre ++ .cert cp :: post⟩ =
        process_certs lib this ⟨exchange, id, pre ++ post⟩) := by
  have htry := try_get_cert_hash_unknown lib cp henc hnone
  have hitem : payload_item lib true (.cert cp) = cp.get_url.map cert_item.url := by
    simp [payload_item, htype, henc, htry]
  have hcrl : crl_entry (.cert cp) = none := by
    simp [crl_entry, henc]
  constructor
  · intro url hurl
    rw [hurl] at hitem
    simp only [process_certs_other_auth, hflag, recorded_entries_append,
      List.drop_left, recorded_entries_end_entity, Bool.true_and]
    cases hall : pre.all (fun p => (payload_item lib true p).isNone) <;>
      simp [recorded_entries, payload_entry, hitem, item_entry]
  · intro hurl
    rw [hurl] at hitem
    constructor
    · apply process_certs_congr
      simp [hflag, recorded_entries_append, recorded_entries, payload_entry, hitem, hcrl]
    · apply process_certs_congr
      simp [hflag, recorded_entries_append, recorded_entries, payload_entry, hitem, hcrl]

/-- C18 at a concrete message: a hash-and-url payload with a URL whose hash is
not known, after a notification. -/
theorem hash_and_url_deferred_witness :
    (process_certs (sample_lib [] true)
        { ike_cert_pre_create (sample_sa IKEV2 none) true with do_http_lookup := true }
        ⟨IKE_AUTH, 1, [.notify ⟨INITIAL_CONTACT, none⟩] ++
          [.cert (sample_hash_url_payload [7] (some "http://a/7"))]⟩).ike_sa.other_auth =
      [] ++ [(AUTH_HELPER_SUBJECT_HASH_URL, auth_value_t.str "http://a/7")] :=
  (hash_and_url_deferred (sample_lib [] true)
    { ike_cert_pre_create (sample_sa IKEV2 none) true with do_http_lookup := true }
    IKE_AUTH 1 [.notify ⟨INITIAL_CONTACT, none⟩] []
    (sample_hash_url_payload [7] (some "http://a/7")) rfl (Or.inl rfl) rfl
    (Or.inr ⟨[7], rfl, rfl⟩)).1 "http://a/7" rfl

/-! ## Rounds of the legacy responder: C15, C16, C17 -/

theorem process_certreqs_payload_sa_frame (lib : library_t) (this : private_ike_cert_pre_t)
    (payload : payload_t) :
    (process_certreqs_payload lib this payload).ike_sa =
      { this.ike_sa with
        my_auth := (process_certreqs_payload lib this payload).ike_sa.my_auth,
        cond_certreq_seen := (process_certreqs_payload lib this payload).ike_sa.cond_certreq_seen,
        ext_hash_and_url := (process_certreqs_payload lib this payload).ike_sa.ext_hash_and_url } := by
  unfold process_certreqs_payload
  split
  · split <;> rfl
  · split <;> rfl
  · split
    · split <;> rfl
    · rfl
  · rfl

theorem process_certreqs_sa_frame (lib : library_t) (message : message_t) :
    ∀ this : private_ike_cert_pre_t,
      (process_certreqs lib this message).ike_sa =
        { this.ike_sa with
          my_auth := (process_certreqs lib this message).ike_sa.my_auth,
          cond_certreq_seen := (process_certreqs lib this message).ike_sa.cond_certreq_seen,
          ext_hash_and_url := (process_certreqs lib this message).ike_sa.ext_hash_and_url } := by
  unfold process_certreqs
  induction message.payloads with
  | nil => intro this; rfl
  | cons p ps ih =>
    intro this
    rw [List.foldl_cons, ih, process_certreqs_payload_sa_frame]

theorem process_certreqs_fields (lib : library_t) (this : private_ike_cert_pre_t)
    (message : message_t) :
    (process_certreqs lib this message).build = this.build ∧
    (process_certreqs lib this message).process = this.process ∧
    (process_certreqs lib this message).final = this.final ∧
    (process_certreqs lib this message).state = this.state ∧
    (process_certreqs lib this message).cert_req_payload_type = this.cert_req_payload_type ∧
    (process_certreqs lib this message).ike_sa.other_auth = this.ike_sa.other_auth ∧
    (process_certreqs lib this message).ike_sa.ike_cfg = this.ike_sa.ike_cfg ∧
    (process_certreqs lib this message).ike_sa.peer_cfg = this.ike_sa.peer_cfg := by
  refine ⟨?_, ?_, ?_, ?_, ?_, ?_, ?_, ?_⟩
  · rw [process_certreqs_frame]
  · rw [process_certreqs_frame]
  · rw [process_certreqs_frame]
  · rw [process_certreqs_frame]
  · rw [process_certreqs_frame]
  · rw [process_certreqs_sa_frame]
  · rw [process_certreqs_sa_frame]
  · rw [process_certreqs_sa_frame]

theorem check_auth_method_advertises (this : private_ike_cert_pre_t) (message : message_t) :
    check_auth_method this message =
      if advertises_cert_method message then (NEED_MORE, { this with state := CP_SA })
      else (SUCCESS, { this with state := CP_NO_CERT, final := true }) := by
  rw [check_auth_method_spec]
  unfold advertises_cert_method
  cases h : first_sa_v1 message.payloads with
  | none => simp
  | some q => cases hq : cert_method q.get_auth_method <;> simp [hq]

theorem process_r_v1_main_mode (lib : library_t) (this : private_ike_cert_pre_t)
    (message : message_t) (hexch : message.exchange_type = ID_PROT) :
    (this.state = CP_INIT →
      process_r_v1 lib this message =
        (NEED_MORE,
          if advertises_cert_method message then { this with state := CP_SA }
          else { this with state := CP_NO_CERT, final := true })) ∧
    (this.state = CP_SA →
      process_r_v1 lib this message =
        (NEED_MORE, { process_certreqs lib this message with state := CP_SA_POST })) ∧
    (this.state = CP_SA_POST →
      process_r_v1 lib this message =
        (NEED_MORE,
          { process_certs lib (process_certreqs lib this message) message with
            state := CP_REQ_SENT, final := true })) := by
  refine ⟨?_, ?_, ?_⟩
  · intro hst
    simp only [process_r_v1, hexch, hst, check_auth_method_advertises]
    cases advertises_cert_method message <;> simp
  · intro hst
    simp only [process_r_v1, hexch, hst]
  · intro hst
    simp only [process_r_v1, hexch, hst]

theorem build_r_v1_main_mode (lib : library_t) (this : private_ike_cert_pre_t)
    (message : message_t) (hexch : message.exchange_type = ID_PROT) :
    build_r_v1 lib this message =
      (if this.final then SUCCESS else NEED_MORE,
        if this.state = CP_SA_POST then build_certreqs_v1 lib this message
        else (this, message)) := by
  simp only [build_r_v1, hexch]
  by_cases hst : this.state = CP_SA_POST
  · simp only [hst, if_true, build_certreqs_v1_task]
    split <;> rfl
  · simp only [hst, if_false]
    split <;> rfl

/-- C15: a legacy responder task in state CP_SA processes a main-mode (ID_PROT)
message. The call is `process_certreqs` followed by the move to CP_SA_POST:
the authentication context of the peer is unchanged, whatever certificate
payloads the message holds, the local one is the one `process_certreqs`
produces, the final flag is unchanged and the call returns NEED_MORE. -/
theorem process_r_v1_sa_seen (lib : library_t) (this : private_ike_cert_pre_t)
    (message : message_t) (hbound : this.process = process_method_t.process_r_v1)
    (hstate : this.state = CP_SA) (hexch : message.exchange_type = ID_PROT) :
    task_process lib this message =
      (NEED_MORE, { process_certreqs lib this message with state := CP_SA_POST }) ∧
    (task_process lib this message).1 = NEED_MORE ∧
    (task_process lib this message).2.state = CP_SA_POST ∧
    (task_process lib this message).2.final = this.final ∧
    (task_process lib this message).2.ike_sa.other_auth = this.ike_sa.other_auth ∧
    (task_process lib this message).2.ike_sa.my_auth =
      (process_certreqs lib this message).ike_sa.my_auth := by
  have h : task_process lib this message =
      (NEED_MORE, { process_certreqs lib this message with state := CP_SA_POST }) := by
    simp only [task_process, hbound]
    exact (process_r_v1_main_mode lib this message hexch).2.1 hstate
  obtain ⟨_, _, hf, _, _, ho, _, _⟩ := process_certreqs_fields lib this message
  rw [h]
  exact ⟨rfl, rfl, rfl, hf, ho, rfl⟩

/-- C15 at a concrete message: a certificate request for a known CA together
with a certificate payload. -/
theorem process_r_v1_sa_seen_witness :
    task_process (sample_lib [sample_ca 1] false)
        { ike_cert_pre_create (sample_sa IKEV1 none) false with state := CP_SA }
        ⟨ID_PROT, 0, [.certreq ⟨CERTIFICATE_REQUEST_V1, CERT_X509, [], some [48, 1]⟩,
          .cert { sample_cert_payload (sample_ee 3) with type := CERTIFICATE_V1 }]⟩ =
      (NEED_MORE,
        { ike_cert_pre_create (sample_sa IKEV1 none) false with
          state := CP_SA_POST,
          ike_sa := { sample_sa IKEV1 none with
            my_auth := [(AUTH_RULE_CA_CERT, .cert (sample_ca 1))],
            cond_certreq_seen := true } }) :=
  (process_r_v1_sa_seen (sample_lib [sample_ca 1] false)
    { ike_cert_pre_create (sample_sa IKEV1 none) false with state := CP_SA }
    ⟨ID_PROT, 0, [.certreq ⟨CERTIFICATE_REQUEST_V1, CERT_X509, [], some [48, 1]⟩,
      .cert { sample_cert_payload (sample_ee 3) with type := CERTIFICATE_V1 }]⟩
    rfl rfl rfl).1

theorem build_r_v1_status (lib : library_t) (this : private_ike_cert_pre_t)
    (message : message_t) :
    (build_r_v1 lib this message).1 = if this.final then SUCCESS else NEED_MORE := by
  have h : ∀ r : private_ike_cert_pre_t × message_t, r.1 = this →
      (if r.1.final then (SUCCESS, r) else (NEED_MORE, r)).1 =
        if this.final then SUCCESS else NEED_MORE := by
    intro r hr
    rw [hr]
    split <;> rfl
  unfold build_r_v1
  apply h
  split
  · split
    · exact build_certreqs_v1_task lib this message
    · rfl
  · split
    · exact build_certreqs_v1_task lib this message
    · rfl
  · rfl

theorem advertises_cert_method_iff (message : message_t) :
    advertises_cert_method message = true ↔
      ∃ q, first_sa_v1 message.payloads = some q ∧
        (q.get_auth_method = AUTH_RSA ∨ q.get_auth_method = AUTH_XAUTH_INIT_RSA ∨
          q.get_auth_method = AUTH_XAUTH_RESP_RSA) := by
  unfold advertises_cert_method
  cases h : first_sa_v1 message.payloads with
  | none => simp
  | some q => simp [cert_method]

/-- C17: a legacy responder task, in any state, processes an aggressive-mode
message. If the negotiation-proposal payload of the message advertises RSA
signature, XAUTH-initiator-RSA or XAUTH-responder-RSA, the call processes the
certificate requests and then the certificates of the message; otherwise it
processes neither and both authentication contexts are unchanged. In both
cases the final flag is true afterwards, so a following `build_r_v1` call
returns SUCCESS on any outgoing message. -/
theorem aggressive_mode_processing (lib : library_t) (this : private_ike_cert_pre_t)
    (message : message_t) (hbound : this.process = process_method_t.process_r_v1)
    (hexch : message.exchange_type = AGGRESSIVE) :
    (advertises_cert_method message = true ↔
      ∃ q, first_sa_v1 message.payloads = some q ∧
        (q.get_auth_method = AUTH_RSA ∨ q.get_auth_method = AUTH_XAUTH_INIT_RSA ∨
          q.get_auth_method = AUTH_XAUTH_RESP_RSA)) ∧
    (advertises_cert_method message = true →
      task_process lib this message =
        (NEED_MORE,
          { process_certs lib (process_certreqs lib { this with state := CP_SA } message)
              message with final := true })) ∧
    (advertises_cert_method message = false →
      task_process lib this message =
        (NEED_MORE, { this with state := CP_NO_CERT, final := true }) ∧
      (task_process lib this message).2.ike_sa.my_auth = this.ike_sa.my_auth ∧
      (task_process lib this message).2.ike_sa.other_auth = this.ike_sa.other_auth) ∧
    (task_process lib this message).2.final = true ∧
    (∀ outgoing, (build_r_v1 lib (task_process lib this message).2 outgoing).1 = SUCCESS) := by
  have hp : task_process lib this message = process_r_v1 lib this message := by
    simp only [task_process, hbound]
  have hfinal : (task_process lib this message).2.final = true := by
    rw [hp]
    simp only [process_r_v1, hexch]
  refine ⟨advertises_cert_method_iff message, ?_, ?_, hfinal, ?_⟩
  · intro hadv
    rw [hp]
    simp [process_r_v1, hexch, check_auth_method_advertises, hadv]
  · intro hadv
    have : task_process lib this message =
        (NEED_MORE, { this with state := CP_NO_CERT, final := true }) := by
      rw [hp]
      simp [process_r_v1, hexch, check_auth_method_advertises, hadv]
    rw [this]
    exact ⟨rfl, rfl, rfl⟩
  · intro outgoing
    rw [build_r_v1_status, hfinal]
    rfl

/-- C17 at concrete messages: an aggressive-mode message with an RSA proposal
and a certificate, and one with a pre-shared-key proposal and a certificate. -/
theorem aggressive_mode_processing_witness :
    task_process (sample_lib [] false) (ike_cert_pre_create (sample_sa IKEV1 none) false)
        ⟨AGGRESSIVE, 0, [.sa ⟨SECURITY_ASSOCIATION_V1, AUTH_RSA⟩,
          .cert { sample_cert_payload (sample_ee 3) with type := CERTIFICATE_V1 }]⟩ =
      (NEED_MORE,
        { ike_cert_pre_create (sample_sa IKEV1 none) false with
          state := CP_SA, final := true,
          ike_sa := { sample_sa IKEV1 none with
            other_auth := [(AUTH_HELPER_SUBJECT_CERT, .cert (sample_ee 3))] } }) ∧
    task_process (sample_lib [] false) (ike_cert_pre_create (sample_sa IKEV1 none) false)
        ⟨AGGRESSIVE, 0, [.sa ⟨SECURITY_ASSOCIATION_V1, AUTH_PSK⟩,
          .cert { sample_cert_payload (sample_ee 3) with type := CERTIFICATE_V1 }]⟩ =
      (NEED_MORE,
        { ike_cert_pre_create (sample_sa IKEV1 none) false with
          state := CP_NO_CERT, final := true }) :=
  ⟨(aggressive_mode_processing (sample_lib [] false)
      (ike_cert_pre_create (sample_sa IKEV1 none) false)
      ⟨AGGRESSIVE, 0, [.sa ⟨SECURITY_ASSOCIATION_V1, AUTH_RSA⟩,
        .cert { sample_cert_payload (sample_ee 3) with type := CERTIFICATE_V1 }]⟩
      rfl rfl).2.1 rfl,
    ((aggressive_mode_processing (sample_lib [] false)
      (ike_cert_pre_create (sample_sa IKEV1 none) false)
      ⟨AGGRESSIVE, 0, [.sa ⟨SECURITY_ASSOCIATION_V1, AUTH_PSK⟩,
        .cert { sample_cert_payload (sample_ee 3) with type := CERTIFICATE_V1 }]⟩
      rfl rfl).2.2.1 rfl).1⟩

theorem add_certreq_congr (this that : private_ike_cert_pre_t)
    (h : that.cert_req_payload_type = this.cert_req_payload_type) :
    add_certreq that = add_certreq this := by
  funext req cert
  simp only [add_certreq, h]

theorem build_certreqs_v1_congr (lib : library_t) (this that : private_ike_cert_pre_t)
    (message : message_t)
    (hcfg : that.ike_sa.ike_cfg = this.ike_sa.ike_cfg)
    (hpeer : that.ike_sa.peer_cfg = this.ike_sa.peer_cfg)
    (htype : that.cert_req_payload_type = this.cert_req_payload_type) :
    (build_certreqs_v1 lib that message).2 = (build_certreqs_v1 lib this message).2 := by
  have hadd := add_certreq_congr this that htype
  have hpeerloop : add_certreqs_v1 that = add_certreqs_v1 this := by
    funext st auth
    simp only [add_certreqs_v1, hadd]
  have hfallback : certreqs_v1_fallback that = certreqs_v1_fallback this := by
    funext st cert
    simp only [certreqs_v1_fallback, hadd]
  have hlocals : build_certreqs_v1_locals lib that = build_certreqs_v1_locals lib this := by
    simp only [build_certreqs_v1_locals, hpeer, hpeerloop, hfallback]
  unfold build_certreqs_v1
  rw [hcfg, hlocals]
  split <;> rfl

/-- C16: on a main-mode (ID_PROT) message `build_r_v1` runs `build_certreqs_v1`
if and only if the state at the call is CP_SA_POST (otherwise task and message
are returned as they are). Hence, for a responder task fresh from
`ike_cert_pre_create` of the legacy generation whose first incoming message
advertises a certificate-requiring method, three rounds of process and build
on ID_PROT messages give the states CP_SA, CP_SA_POST, CP_REQ_SENT after the
process calls and the statuses NEED_MORE, NEED_MORE, SUCCESS for the build
calls; the first and the third outgoing message are unchanged and the second
is the one `build_certreqs_v1` produces. -/
theorem main_mode_rounds (lib : library_t) (ike_sa : ike_sa_t)
    (m1 m2 m3 o1 o2 o3 : message_t) (this : private_ike_cert_pre_t)
    (hlegacy : ike_sa.version ≠ IKEV2)
    (hm1 : m1.exchange_type = ID_PROT) (hm2 : m2.exchange_type = ID_PROT)
    (hm3 : m3.exchange_type = ID_PROT) (ho1 : o1.exchange_type = ID_PROT)
    (ho2 : o2.exchange_type = ID_PROT) (ho3 : o3.exchange_type = ID_PROT)
    (hadv : advertises_cert_method m1 = true) :
    build_r_v1 lib this o1 =
      (if this.final then SUCCESS else NEED_MORE,
        if this.state = CP_SA_POST then build_certreqs_v1 lib this o1 else (this, o1)) ∧
    run_rounds lib (ike_cert_pre_create ike_sa false) [(m1, o1), (m2, o2), (m3, o3)] =
      [(CP_SA, NEED_MORE, o1),
        (CP_SA_POST, NEED_MORE,
          (build_certreqs_v1 lib (ike_cert_pre_create ike_sa false) o2).2),
        (CP_REQ_SENT, SUCCESS, o3)] := by
  refine ⟨build_r_v1_main_mode lib this o1 ho1, ?_⟩
  obtain ⟨t0, ht0⟩ : ∃ t0, t0 = ike_cert_pre_create ike_sa false := ⟨_, rfl⟩
  have hfields : t0.build = .build_r_v1 ∧ t0.process = .process_r_v1 ∧ t0.final = false ∧
      t0.state = CP_INIT := by
    rw [ht0]
    simp [ike_cert_pre_create, hlegacy]
  obtain ⟨hb0, hp0, hf0, hs0⟩ := hfields
  rw [← ht0]
  -- first round
  obtain ⟨t1, ht1⟩ : ∃ t1, t1 = { t0 with state := CP_SA } := ⟨_, rfl⟩
  have p1 : task_process lib t0 m1 = (NEED_MORE, t1) := by
    simp only [task_process, hp0, (process_r_v1_main_mode lib t0 m1 hm1).1 hs0, hadv, if_true,
      ht1]
  have hb1 : t1.build = .build_r_v1 := by rw [ht1]; exact hb0
  have hp1 : t1.process = .process_r_v1 := by rw [ht1]; exact hp0
  have hf1 : t1.final = false := by rw [ht1]; exact hf0
  have hs1 : t1.state = CP_SA := by rw [ht1]
  have b1 : task_build lib t1 o1 = (NEED_MORE, t1, o1) := by
    simp [task_build, hb1, build_r_v1_main_mode lib t1 o1 ho1, hf1, hs1]
  -- second round
  obtain ⟨hcb, hcp, hcf, _, hct, _, hcc, hcpc⟩ := process_certreqs_fields lib t1 m2
  obtain ⟨t2, ht2⟩ : ∃ t2, t2 = { process_certreqs lib t1 m2 with state := CP_SA_POST } :=
    ⟨_, rfl⟩
  have p2 : task_process lib t1 m2 = (NEED_MORE, t2) := by
    simp only [task_process, hp1, (process_r_v1_main_mode lib t1 m2 hm2).2.1 hs1, ht2]
  have hb2 : t2.build = .build_r_v1 := by rw [ht2]; exact hcb.trans hb1
  have hp2 : t2.process = .process_r_v1 := by rw [ht2]; exact hcp.trans hp1
  have hf2 : t2.final = false := by rw [ht2]; exact hcf.trans hf1
  have hs2 : t2.state = CP_SA_POST := by rw [ht2]
  have hsame : (build_certreqs_v1 lib t2 o2).2 = (build_certreqs_v1 lib t0 o2).2 := by
    apply build_certreqs_v1_congr
    · rw [ht2]; exact hcc.trans (by rw [ht1])
    · rw [ht2]; exact hcpc.trans (by rw [ht1])
    · rw [ht2]; exact hct.trans (by rw [ht1])
  have b2 : task_build lib t2 o2 = (NEED_MORE, t2, (build_certreqs_v1 lib t0 o2).2) := by
    have : build_certreqs_v1 lib t2 o2 = (t2, (build_certreqs_v1 lib t0 o2).2) :=
      Prod.ext (build_certreqs_v1_task lib t2 o2) hsame
    simp [task_build, hb2, build_r_v1_main_mode lib t2 o2 ho2, hf2, hs2, this]
  -- third round
  obtain ⟨hdb, _, _, _, _, _, _, _⟩ := process_certreqs_fields lib t2 m3
  obtain ⟨t3, ht3⟩ : ∃ t3, t3 =
      { process_certs lib (process_certreqs lib t2 m3) m3 with
        state := CP_REQ_SENT, final := true } := ⟨_, rfl⟩
  have p3 : task_process lib t2 m3 = (NEED_MORE, t3) := by
    simp only [task_process, hp2, (process_r_v1_main_mode lib t2 m3 hm3).2.2 hs2, ht3]
  have hb3 : t3.build = .build_r_v1 := by rw [ht3]; exact hdb.trans hb2
  have hf3 : t3.final = true := by rw [ht3]
  have hs3 : t3.state = CP_REQ_SENT := by rw [ht3]
  have b3 : task_build lib t3 o3 = (SUCCESS, t3, o3) := by
    simp [task_build, hb3, build_r_v1_main_mode lib t3 o3 ho3, hf3, hs3]
  simp only [run_rounds, p1, b1, p2, b2, p3, b3, hs1, hs2, hs3]

/-- C16 at a concrete run: a store trusting CA 1, an RSA proposal in the first
message and a certificate in the third. -/
theorem main_mode_rounds_witness :
    run_rounds (sample_lib [sample_ca 1] false)
        (ike_cert_pre_create (sample_sa IKEV1 none) false)
        [(⟨ID_PROT, 0, [.sa ⟨SECURITY_ASSOCIATION_V1, AUTH_RSA⟩]⟩, ⟨ID_PROT, 0, []⟩),
          (⟨ID_PROT, 0, []⟩, ⟨ID_PROT, 0, []⟩),
          (⟨ID_PROT, 0, [.cert { sample_cert_payload (sample_ee 3) with type := CERTIFICATE_V1 }]⟩,
            ⟨ID_PROT, 0, []⟩)] =
      [(CP_SA, NEED_MORE, ⟨ID_PROT, 0, []⟩),
        (CP_SA_POST, NEED_MORE,
          ⟨ID_PROT, 0, [.certreq ⟨CERTIFICATE_REQUEST_V1, CERT_X509, [], some [48, 1]⟩]⟩),
        (CP_REQ_SENT, SUCCESS, ⟨ID_PROT, 0, []⟩)] :=
  (main_mode_rounds (sample_lib [sample_ca 1] false) (sample_sa IKEV1 none)
    ⟨ID_PROT, 0, [.sa ⟨SECURITY_ASSOCIATION_V1, AUTH_RSA⟩]⟩ ⟨ID_PROT, 0, []⟩
    ⟨ID_PROT, 0, [.cert { sample_cert_payload (sample_ee 3) with type := CERTIFICATE_V1 }]⟩
    ⟨ID_PROT, 0, []⟩ ⟨ID_PROT, 0, []⟩ ⟨ID_PROT, 0, []⟩
    (ike_cert_pre_create (sample_sa IKEV1 none) false)
    (by decide) rfl rfl rfl rfl rfl rfl rfl).2

/-! ## Sequences of calls: C19, C20 -/

theorem build_r_frame (lib : library_t) (this : private_ike_cert_pre_t)
    (message : message_t) :
    (build_r lib this message).2.1 =
      { this with do_http_lookup := (build_r lib this message).2.1.do_http_lookup } ∧
    (build_r lib this message).1 = if this.final then SUCCESS else NEED_MORE := by
  have h : ∀ r : private_ike_cert_pre_t × message_t,
      r.1 = { this with do_http_lookup := r.1.do_http_lookup } →
      (if r.1.final then (SUCCESS, r) else (NEED_MORE, r)).2.1 =
        { this with do_http_lookup :=
            (if r.1.final then (SUCCESS, r) else (NEED_MORE, r)).2.1.do_http_lookup } ∧
      (if r.1.final then (SUCCESS, r) else (NEED_MORE, r)).1 =
        if this.final then SUCCESS else NEED_MORE := by
    intro r hr
    have hf : r.1.final = this.final := by rw [hr]
    rw [hf]
    split <;> exact ⟨hr, rfl⟩
  unfold build_r
  apply h
  split
  · exact build_certreqs_frame lib this message
  · rfl

theorem process_r_frame (lib : library_t) (this : private_ike_cert_pre_t)
    (message : message_t) :
    (process_r lib this message).2.build = this.build ∧
    (process_r lib this message).2.process = this.process ∧
    (process_r lib this message).2.final = final_auth message := by
  obtain ⟨hb, hp, _⟩ := process_certreqs_fields lib this message
  unfold process_r
  split
  · exact ⟨hb, hp, rfl⟩
  · exact ⟨rfl, rfl, rfl⟩

theorem run_calls_responder (lib : library_t) :
    ∀ (calls : List call_t) (this : private_ike_cert_pre_t),
      this.build = .build_r → this.process = .process_r →
      (run_calls lib this calls).build = .build_r ∧
      (run_calls lib this calls).process = .process_r ∧
      (run_calls lib this calls).final =
        match last_processed calls with
        | some message => final_auth message
        | none => this.final := by
  intro calls
  induction calls with
  | nil => intro this hb hp; exact ⟨hb, hp, rfl⟩
  | cons call calls ih =>
    intro this hb hp
    have hstep : (run_call lib this call).build = .build_r ∧
        (run_call lib this call).process = .process_r ∧
        (run_call lib this call).final =
          match call with
          | .process message => final_auth message
          | .build _ => this.final := by
      cases call with
      | build message =>
        simp only [run_call, task_build, hb]
        rw [(build_r_frame lib this message).1]
        exact ⟨hb, hp, rfl⟩
      | process message =>
        simp only [run_call, task_process, hp]
        obtain ⟨h1, h2, h3⟩ := process_r_frame lib this message
        exact ⟨h1.trans hb, h2.trans hp, h3⟩
    obtain ⟨h1, h2, h3⟩ := ih (run_call lib this call) hstep.1 hstep.2.1
    refine ⟨h1, h2, ?_⟩
    change (run_calls lib (run_call lib this call) calls).final = _
    rw [h3, hstep.2.2]
    simp only [last_processed]
    cases last_processed calls with
    | some message => rfl
    | none => cases call <;> rfl

/-- C19: for a responder task of the newer generation, after any sequence of
calls starting from the task built by `ike_cert_pre_create`, a build call
returns SUCCESS if and only if the sequence holds a process call and the
message of the latest one contains an AUTHENTICATION payload and no
ANOTHER_AUTH_FOLLOWS notification; it returns NEED_MORE otherwise. -/
theorem build_r_follows_latest_processed (lib : library_t) (ike_sa : ike_sa_t)
    (calls : List call_t) (outgoing : message_t) (hnewer : ike_sa.version = IKEV2) :
    ((task_build lib (run_calls lib (ike_cert_pre_create ike_sa false) calls) outgoing).1 =
        SUCCESS ↔
      ∃ message, last_processed calls = some message ∧
        contains_payload message AUTHENTICATION ∧
        ¬ contains_notify message ANOTHER_AUTH_FOLLOWS) ∧
    (¬ (∃ message, last_processed calls = some message ∧
        contains_payload message AUTHENTICATION ∧
        ¬ contains_notify message ANOTHER_AUTH_FOLLOWS) →
      (task_build lib (run_calls lib (ike_cert_pre_create ike_sa false) calls) outgoing).1 =
        NEED_MORE) := by
  have hcreate : (ike_cert_pre_create ike_sa false).build = .build_r ∧
      (ike_cert_pre_create ike_sa false).process = .process_r ∧
      (ike_cert_pre_create ike_sa false).final = false := by
    simp [ike_cert_pre_create, hnewer]
  obtain ⟨hb, _, hf⟩ := run_calls_responder lib calls (ike_cert_pre_create ike_sa false)
    hcreate.1 hcreate.2.1
  have hstatus : (task_build lib (run_calls lib (ike_cert_pre_create ike_sa false) calls)
      outgoing).1 =
      if (run_calls lib (ike_cert_pre_create ike_sa false) calls).final then SUCCESS
      else NEED_MORE := by
    simp only [task_build, hb]
    exact (build_r_frame lib _ outgoing).2
  have hiff : (run_calls lib (ike_cert_pre_create ike_sa false) calls).final = true ↔
      ∃ message, last_processed calls = some message ∧
        contains_payload message AUTHENTICATION ∧
        ¬ contains_notify message ANOTHER_AUTH_FOLLOWS := by
    rw [hf]
    cases last_processed calls with
    | none => simp [hcreate.2.2]
    | some message => simp [final_auth_eq_true_iff]
  rw [hstatus, ← hiff]
  cases (run_calls lib (ike_cert_pre_create ike_sa false) calls).final <;> simp

/-- C19 at a concrete sequence: a final message is processed, then a message
announcing another authentication round. -/
theorem build_r_follows_latest_processed_witness :
    (task_build (sample_lib [] false)
        (run_calls (sample_lib [] false) (ike_cert_pre_create (sample_sa IKEV2 none) false)
          [.process ⟨IKE_AUTH, 1, [.unknown AUTHENTICATION]⟩, .build ⟨IKE_AUTH, 1, []⟩,
            .process ⟨IKE_AUTH, 2, [.unknown AUTHENTICATION,
              .notify ⟨ANOTHER_AUTH_FOLLOWS, none⟩]⟩])
        ⟨IKE_AUTH, 2, []⟩).1 = NEED_MORE :=
  (build_r_follows_latest_processed (sample_lib [] false) (sample_sa IKEV2 none)
    [.process ⟨IKE_AUTH, 1, [.unknown AUTHENTICATION]⟩, .build ⟨IKE_AUTH, 1, []⟩,
      .process ⟨IKE_AUTH, 2, [.unknown AUTHENTICATION, .notify ⟨ANOTHER_AUTH_FOLLOWS, none⟩]⟩]
    ⟨IKE_AUTH, 2, []⟩ rfl).2
    (by
      rintro ⟨message, hm, _, hn⟩
      have hm2 : message = ⟨IKE_AUTH, 2, [.unknown AUTHENTICATION,
          .notify ⟨ANOTHER_AUTH_FOLLOWS, none⟩]⟩ := by
        simp only [last_processed, Option.some.injEq] at hm
        exact hm.symm
      apply hn
      rw [hm2]
      exact ⟨⟨ANOTHER_AUTH_FOLLOWS, none⟩, by simp, rfl⟩)

theorem process_certreqs_build (lib : library_t) (this : private_ike_cert_pre_t)
    (message : message_t) : (process_certreqs lib this message).build = this.build :=
  (process_certreqs_fields lib this message).1

theorem process_certreqs_process (lib : library_t) (this : private_ike_cert_pre_t)
    (message : message_t) : (process_certreqs lib this message).process = this.process :=
  (process_certreqs_fields lib this message).2.1

theorem check_auth_method_bindings (this : private_ike_cert_pre_t) (message : message_t) :
    (check_auth_method this message).2.build = this.build ∧
    (check_auth_method this message).2.process = this.process := by
  rw [check_auth_method_advertises]
  split <;> exact ⟨rfl, rfl⟩

theorem process_r_v1_bindings (lib : library_t) (this : private_ike_cert_pre_t)
    (message : message_t) :
    (process_r_v1 lib this message).2.build = this.build ∧
    (process_r_v1 lib this message).2.process = this.process := by
  obtain ⟨hcb, hcp⟩ := check_auth_method_bindings this message
  unfold process_r_v1
  split
  · split
    · exact ⟨hcb, hcp⟩
    · exact ⟨process_certreqs_build lib this message, process_certreqs_process lib this message⟩
    · exact ⟨process_certreqs_build lib this message, process_certreqs_process lib this message⟩
    · exact ⟨rfl, rfl⟩
  · simp only []
    split
    · exact ⟨(process_certreqs_build lib _ message).trans hcb,
        (process_certreqs_process lib _ message).trans hcp⟩
    · exact ⟨hcb, hcp⟩
  · exact ⟨rfl, rfl⟩

theorem run_calls_legacy (lib : library_t) :
    ∀ (calls : List call_t) (this : private_ike_cert_pre_t),
      ((this.build = .build_i_v1 ∧ this.process = .process_i_v1) ∨
        (this.build = .build_r_v1 ∧ this.process = .process_r_v1)) →
      this.do_http_lookup = false →
      (((run_calls lib this calls).build = .build_i_v1 ∧
          (run_calls lib this calls).process = .process_i_v1) ∨
        ((run_calls lib this calls).build = .build_r_v1 ∧
          (run_calls lib this calls).process = .process_r_v1)) ∧
      (run_calls lib this calls).do_http_lookup = false := by
  intro calls
  induction calls with
  | nil =>
    intro this hb hf
    exact ⟨hb, hf⟩
  | cons call calls ih =>
    intro this hb hf
    have hstep : ((run_call lib this call).build = .build_i_v1 ∧
          (run_call lib this call).process = .process_i_v1) ∨
        ((run_call lib this call).build = .build_r_v1 ∧
          (run_call lib this call).process = .process_r_v1) := by
      cases call with
      | build message =>
        rcases hb with ⟨h1, h2⟩ | ⟨h1, h2⟩
        · left
          have e : run_call lib this (.build message) = this := by
            simp only [run_call, task_build, h1, build_i_v1]
          rw [e]
          exact ⟨h1, h2⟩
        · right
          have e : run_call lib this (.build message) = this := by
            simp only [run_call, task_build, h1, build_r_v1_task]
          rw [e]
          exact ⟨h1, h2⟩
      | process message =>
        rcases hb with ⟨h1, h2⟩ | ⟨h1, h2⟩
        · left
          have e : run_call lib this (.process message) = this := by
            simp only [run_call, task_process, h2, process_i_v1]
          rw [e]
          exact ⟨h1, h2⟩
        · right
          obtain ⟨h3, h4⟩ := process_r_v1_bindings lib this message
          have e : run_call lib this (.process message) =
              (process_r_v1 lib this message).2 := by
            simp only [run_call, task_process, h2]
          rw [e]
          exact ⟨h3.trans h1, h4.trans h2⟩
    have hflag : (run_call lib this call).do_http_lookup = false := by
      cases call with
      | build message =>
        rcases hb with ⟨h1, _⟩ | ⟨h1, _⟩
        · have e : run_call lib this (.build message) = this := by
            simp only [run_call, task_build, h1, build_i_v1]
          rw [e]
          exact hf
        · have e : run_call lib this (.build message) = this := by
            simp only [run_call, task_build, h1, build_r_v1_task]
          rw [e]
          exact hf
      | process message =>
        simp only [run_call]
        rw [task_process_flag]
        exact hf
    exact ih (run_call lib this call) hstep hflag

theorem task_build_legacy_added (lib : library_t) (this : private_ike_cert_pre_t)
    (message : message_t)
    (hb : this.build = .build_i_v1 ∨ this.build = .build_r_v1) :
    ∃ l : List payload_t,
      (task_build lib this message).2.2 =
        { message with payloads := message.payloads ++ l } ∧
      ∀ p ∈ l, is_http_cert_lookup_notify p = false := by
  rcases hb with h | h
  · exact ⟨[], by simp [task_build, h, build_i_v1], by simp⟩
  · obtain ⟨l, hl, hn⟩ := build_r_v1_added lib this message
    refine ⟨l, ?_, hn⟩
    simp only [task_build, h, hl]

theorem foldl_filter_of_skip {α β : Type} (f : β → α → β) (keep : α → Bool)
    (h : ∀ b a, keep a = false → f b a = b) :
    ∀ (l : List α) (b : β), l.foldl f b = (l.filter keep).foldl f b := by
  intro l
  induction l with
  | nil => intro b; rfl
  | cons a l ih =>
    intro b
    cases hk : keep a
    · rw [List.foldl_cons, h b a hk, List.filter_cons_of_neg (by simp [hk])]
      exact ih b
    · rw [List.foldl_cons, List.filter_cons_of_pos hk, List.foldl_cons]
      exact ih _

theorem process_certs_drop (lib : library_t) (this : private_ike_cert_pre_t)
    (message : message_t) (h : this.do_http_lookup = false) :
    process_certs lib this (drop_hash_and_url message) = process_certs lib this message := by
  simp only [process_certs, drop_hash_and_url, h]
  rw [← process_certs_loop_drop lib message.payloads]

theorem process_certreqs_drop (lib : library_t) (this : private_ike_cert_pre_t)
    (message : message_t) :
    process_certreqs lib this (drop_hash_and_url message) = process_certreqs lib this message := by
  simp only [process_certreqs, drop_hash_and_url]
  symm
  apply foldl_filter_of_skip
  intro b p hp
  cases p with
  | cert c =>
    simp only [is_hash_and_url_cert, Bool.not_eq_false', decide_eq_true_eq] at hp
    rcases hp.1 with h | h <;> simp [process_certreqs_payload, payload_t.get_type, h]
  | sa q => simp [is_hash_and_url_cert] at hp
  | certreq q => simp [is_hash_and_url_cert] at hp
  | notify q => simp [is_hash_and_url_cert] at hp
  | unknown q => simp [is_hash_and_url_cert] at hp
  | not_a_payload => simp [is_hash_and_url_cert] at hp

theorem first_sa_v1_drop :
    ∀ ps : List payload_t,
      first_sa_v1 (ps.filter (fun p => !is_hash_and_url_cert p)) = first_sa_v1 ps := by
  intro ps
  induction ps with
  | nil => rfl
  | cons p ps ih =>
    cases p with
    | cert c =>
      cases hk : is_hash_and_url_cert (.cert c)
      · rw [List.filter_cons_of_pos (by simp [hk])]
        simp only [first_sa_v1, ih]
      · rw [List.filter_cons_of_neg (by simp [hk])]
        simp only [first_sa_v1, ih]
    | sa q =>
      rw [List.filter_cons_of_pos (by simp [is_hash_and_url_cert])]
      simp only [first_sa_v1, ih]
    | certreq q =>
      rw [List.filter_cons_of_pos (by simp [is_hash_and_url_cert])]
      simp only [first_sa_v1, ih]
    | notify q =>
      rw [List.filter_cons_of_pos (by simp [is_hash_and_url_cert])]
      simp only [first_sa_v1, ih]
    | unknown q =>
      rw [List.filter_cons_of_pos (by simp [is_hash_and_url_cert])]
      simp only [first_sa_v1, ih]
    | not_a_payload =>
      rw [List.filter_cons_of_pos (by simp [is_hash_and_url_cert])]
      simp only [first_sa_v1, ih]

theorem check_auth_method_drop (this : private_ike_cert_pre_t) (message : message_t) :
    check_auth_method this (drop_hash_and_url message) = check_auth_method this message := by
  simp only [check_auth_method_advertises, advertises_cert_method, drop_hash_and_url,
    first_sa_v1_drop]

theorem process_r_v1_drop (lib : library_t) (this : private_ike_cert_pre_t)
    (message : message_t) (h : this.do_http_lookup = false) :
    process_r_v1 lib this (drop_hash_and_url message) = process_r_v1 lib this message := by
  have hx : (drop_hash_and_url message).exchange_type = message.exchange_type := rfl
  have h1 : (process_certreqs lib this message).do_http_lookup = false := by
    rw [process_certreqs_flag]; exact h
  have h2 : (process_certreqs lib (check_auth_method this message).2 message).do_http_lookup =
      false := by
    rw [process_certreqs_flag, check_auth_method_flag]; exact h
  simp only [process_r_v1, hx, check_auth_method_drop, process_certreqs_drop,
    process_certs_drop lib _ message h1, process_certs_drop lib _ message h2]

/-- C20: take a task created for the legacy generation (either role) and any
sequence of build and process calls on any messages. Afterwards
`do_http_lookup` is still false; a build call appends no
HTTP_CERT_LOOKUP_SUPPORTED notification to the outgoing message; and
`process_certs`, like the whole process call, gives the same result as on the
message without its hash-and-url encoded certificate payloads, so that no
certificate or URL derived from such a payload reaches the authentication
context. -/
theorem legacy_never_accepts_hash_and_url (lib : library_t) (ike_sa : ike_sa_t)
    (initiator : Bool) (calls : List call_t) (hlegacy : ike_sa.version ≠ IKEV2) :
    (run_calls lib (ike_cert_pre_create ike_sa initiator) calls).do_http_lookup = false ∧
    (∀ outgoing : message_t, ∃ l : List payload_t,
      (task_build lib (run_calls lib (ike_cert_pre_create ike_sa initiator) calls)
          outgoing).2.2 = { outgoing with payloads := outgoing.payloads ++ l } ∧
      ∀ p ∈ l, is_http_cert_lookup_notify p = false) ∧
    (∀ message : message_t,
      process_certs lib (run_calls lib (ike_cert_pre_create ike_sa initiator) calls) message =
        process_certs lib (run_calls lib (ike_cert_pre_create ike_sa initiator) calls)
          (drop_hash_and_url message)) ∧
    (∀ message : message_t,
      task_process lib (run_calls lib (ike_cert_pre_create ike_sa initiator) calls) message =
        task_process lib (run_calls lib (ike_cert_pre_create ike_sa initiator) calls)
          (drop_hash_and_url message)) := by
  have hcreate : (((ike_cert_pre_create ike_sa initiator).build = .build_i_v1 ∧
        (ike_cert_pre_create ike_sa initiator).process = .process_i_v1) ∨
      ((ike_cert_pre_create ike_sa initiator).build = .build_r_v1 ∧
        (ike_cert_pre_create ike_sa initiator).process = .process_r_v1)) ∧
      (ike_cert_pre_create ike_sa initiator).do_http_lookup = false := by
    cases initiator <;> simp [ike_cert_pre_create, hlegacy]
  obtain ⟨hb, hf⟩ := run_calls_legacy lib calls (ike_cert_pre_create ike_sa initiator)
    hcreate.1 hcreate.2
  refine ⟨hf, ?_, ?_, ?_⟩
  · intro outgoing
    apply task_build_legacy_added
    rcases hb with ⟨h, _⟩ | ⟨h, _⟩
    · exact Or.inl h
    · exact Or.inr h
  · intro message
    exact (process_certs_drop lib _ message hf).symm
  · intro message
    rcases hb with ⟨_, h⟩ | ⟨_, h⟩
    · simp only [task_process, h, process_i_v1]
    · simp only [task_process, h]
      exact (process_r_v1_drop lib _ message hf).symm

/-- C20 at a concrete run: a legacy responder after a main-mode round, a store
that knows the hash of the hash-and-url payload, hash-and-url enabled in the
settings. -/
theorem legacy_never_accepts_hash_and_url_witness :
    (run_calls (sample_lib [sample_ca 7] true)
        (ike_cert_pre_create (sample_sa IKEV1 none) false)
        [.process ⟨ID_PROT, 0, [.sa ⟨SECURITY_ASSOCIATION_V1, AUTH_RSA⟩]⟩,
          .build ⟨ID_PROT, 0, []⟩]).do_http_lookup = false ∧
    process_certs (sample_lib [sample_ca 7] true)
        (run_calls (sample_lib [sample_ca 7] true)
          (ike_cert_pre_create (sample_sa IKEV1 none) false)
          [.process ⟨ID_PROT, 0, [.sa ⟨SECURITY_ASSOCIATION_V1, AUTH_RSA⟩]⟩,
            .build ⟨ID_PROT, 0, []⟩])
        ⟨ID_PROT, 0, [.cert { sample_hash_url_payload [7] (some "http://a/7") with
          type := CERTIFICATE_V1 }]⟩ =
      process_certs (sample_lib [sample_ca 7] true)
        (run_calls (sample_lib [sample_ca 7] true)
          (ike_cert_pre_create (sample_sa IKEV1 none) false)
          [.process ⟨ID_PROT, 0, [.sa ⟨SECURITY_ASSOCIATION_V1, AUTH_RSA⟩]⟩,
            .build ⟨ID_PROT, 0, []⟩])
        ⟨ID_PROT, 0, []⟩ :=
  ⟨(legacy_never_accepts_hash_and_url (sample_lib [sample_ca 7] true) (sample_sa IKEV1 none)
      false
      [.process ⟨ID_PROT, 0, [.sa ⟨SECURITY_ASSOCIATION_V1, AUTH_RSA⟩]⟩,
        .build ⟨ID_PROT, 0, []⟩] (by decide)).1,
    (legacy_never_accepts_hash_and_url (sample_lib [sample_ca 7] true) (sample_sa IKEV1 none)
      false
      [.process ⟨ID_PROT, 0, [.sa ⟨SECURITY_ASSOCIATION_V1, AUTH_RSA⟩]⟩,
        .build ⟨ID_PROT, 0, []⟩] (by decide)).2.2.1
      ⟨ID_PROT, 0, [.cert { sample_hash_url_payload [7] (some "http://a/7") with
        type := CERTIFICATE_V1 }]⟩⟩

end ike_cert_pre
